import Mathlib

/-!
# liteio: storage pool provisioning

A shallow embedding of `pkg/agent/pool/builder.go` (the pool builder) and of
`pkg/spdk/service_uring.go` (the io_uring bdev operations of the SPDK service).

Every collaborator of the Go code (pool engine, SPDK service, LVM utility,
kernel-module / PCI / NVMe utilities, the file system, the RPC client) is an
explicit function of a host state `σ`, returning its Go results together with
the next host state.  Running a procedure yields its Go results, the final host
state and the ordered list of collaborator calls it issued.  Logging (`klog`)
has no effect on results and is left out.
-/

set_option autoImplicit false

namespace liteio

/-! ## Go errors and machine integers -/

/-- A Go `error` value that is not nil.  The three flags are the answers of the
error predicates the code consults: `errors.Is(err, engine.ErrNotFoundVG)`,
`spdk.IsNotFoundDeviceError(err)` and `os.IsNotExist(err)`; the predicates are
declared outside the given sources, so their answers are carried by the error. -/
structure GoError where
  msg : String
  isNotFoundVG : Bool
  isNotFoundDevice : Bool
  isNotExist : Bool
  deriving DecidableEq, Repr

/-- An error built by `fmt.Errorf` without `%w`: it wraps nothing. -/
def Errorf (msg : String) : GoError :=
  { msg := msg, isNotFoundVG := false, isNotFoundDevice := false, isNotExist := false }

/-- The predicate `spdk.IsNotFoundDeviceError` on a possibly nil error. -/
def IsNotFoundDeviceError : Option GoError → Bool
  | none => false
  | some e => e.isNotFoundDevice

/-- The predicate `os.IsNotExist` on a possibly nil error. -/
def IsNotExist : Option GoError → Bool
  | none => false
  | some e => e.isNotExist

/-- Two's-complement wrap of an integer into the range of Go `int64` / `int`. -/
def wrapInt64 (x : Int) : Int := (x + 2 ^ 63) % 2 ^ 64 - 2 ^ 63

/-- Go conversion `uint64(x)` of a signed 64-bit value. -/
def toUint64 (x : Int) : Nat := (x % 2 ^ 64).toNat

/-- Go conversions `int64(n)` and `int(n)` of a `uint64` value. -/
def toInt64 (n : Nat) : Int := wrapInt64 (Int.ofNat (n % 2 ^ 64))

/-- The untyped constant `defaultBlockSize`, read here at type `uint64`. -/
def defaultBlockSize : Nat := 512

/-! ## Data model -/

namespace v1

/-- Modelled from the spec: the string type `v1.PoolMode` and its constants are
declared outside the given sources; the two constants `Build` switches on, and
any other value. -/
inductive PoolMode where
  | PoolModeKernelLVM
  | PoolModeSpdkLVStore
  | other (s : String)
  deriving DecidableEq, Repr

/-- Modelled from the spec: rendering of a mode by the `%s` verb (the constants'
string values are not in the given sources; they only reach an error message). -/
def PoolMode.render : PoolMode → String
  | .PoolModeKernelLVM => "KernelLVM"
  | .PoolModeSpdkLVStore => "SpdkLVStore"
  | .other s => s

/-- Modelled from the spec: the kernel volume-group record `v1.VG` (identity and
metadata as reported by the LVM layer), declared outside the given sources. -/
structure VG where
  Name : String
  UUID : String
  Bytes : Nat
  deriving DecidableEq, Repr

/-- Modelled from the spec: the record `v1.SpdkLVStore`, declared outside the
given sources, with the fields `builder.go` assigns; `Bytes` is a `uint64` (the
code converts to it), the other numbers are Go `int`. -/
structure SpdkLVStore where
  Name : String
  UUID : String
  BaseBdev : String
  ClusterSize : Int
  TotalDataCluster : Int
  BlockSize : Int
  Bytes : Nat
  deriving DecidableEq, Repr

end v1

namespace config

/-- Modelled from the spec: the string type `config.BdevType`, declared outside
the given sources: the four constants the code switches on, and any other value. -/
inductive BdevType where
  | AioBdevType
  | UringBdevType
  | MemBdevType
  | RaidBdevType
  | other (s : String)
  deriving DecidableEq, Repr

/-- Modelled from the spec: rendering of a base-device kind by the `%s` verb (the
constants' string values are not in the given sources; they only reach an
error message). -/
def BdevType.render : BdevType → String
  | .AioBdevType => "aioBdev"
  | .UringBdevType => "uringBdev"
  | .MemBdevType => "memBdev"
  | .RaidBdevType => "raidBdev"
  | .other s => s

/-- Modelled from the spec: one entry of `StorageStack.PVs`, declared outside the
given sources, with the fields `buildLVM` reads; `Size` is an unsigned 64-bit
number (the code converts it with `int64(...)`). -/
structure PV where
  DevicePath : String
  FilePath : String
  Size : Nat
  deriving DecidableEq, Repr

/-- Modelled from the spec: the field `StorageStack.Pooling`, declared outside
the given sources; only its `Name` is read. -/
structure Pooling where
  Name : String
  deriving DecidableEq, Repr

/-- Modelled from the spec: the field `StorageStack.Bdev`, declared outside the
given sources, with the fields the builder reads (`Type_` stands for the Go
field `Type`); `Size` is an unsigned 64-bit number. -/
structure Bdev where
  Type_ : BdevType
  Name : String
  Size : Nat
  FilePath : String
  deriving DecidableEq, Repr

/-- Modelled from the spec: the configuration `config.StorageStack`, declared
outside the given sources, with the three fields the builder reads. -/
structure StorageStack where
  Pooling : Pooling
  PVs : List PV
  Bdev : Bdev
  deriving DecidableEq, Repr

end config

namespace engine

/-- Modelled from the spec: the descriptor `engine.StaticInfo`, declared outside
the given sources: the two nullable pointers the builder reads and assigns. -/
structure StaticInfo where
  LVM : Option v1.VG
  LVS : Option v1.SpdkLVStore
  deriving DecidableEq, Repr

/-- The zero value of `engine.StaticInfo`. -/
def StaticInfo.zero : StaticInfo := { LVM := none, LVS := none }

end engine

namespace spdk

/-- Modelled from the spec: the record `client.LVStoreInfo` (also named
`spdk.LVStoreInfo`), declared outside the given sources, with the fields the
builder copies; its numbers are Go `int`, whose product the code converts with
`uint64(...)`. -/
structure LVStoreInfo where
  Name : String
  UUID : String
  BaseBdev : String
  ClusterSize : Int
  TotalDataClusters : Int
  BlockSize : Int
  deriving DecidableEq, Repr

/-- The zero value of `LVStoreInfo`. -/
def LVStoreInfo.zero : LVStoreInfo :=
  { Name := "", UUID := "", BaseBdev := "", ClusterSize := 0, TotalDataClusters := 0, BlockSize := 0 }

/-- Modelled from the spec: an entry `spdk.Bdev` of a bdev listing, declared
outside the given sources; only its name is read. -/
structure Bdev where
  Name : String
  deriving DecidableEq, Repr

/-- Modelled from the spec: the request `spdk.CreateLVStoreReq`, declared outside
the given sources, with the fields the builder sets. -/
structure CreateLVStoreReq where
  BdevName : String
  LVStoreName : String
  deriving DecidableEq, Repr

/-- Modelled from the spec: the request `spdk.AioBdevCreateRequest`, declared
outside the given sources, with the fields the builder sets. -/
structure AioBdevCreateRequest where
  BdevName : String
  DevPath : String
  BlockSize : Int
  deriving DecidableEq, Repr

/-- Request of `CreateUringBdev`. -/
structure UringBdevCreateRequest where
  BdevName : String
  DevPath : String
  BlockSize : Int
  deriving DecidableEq, Repr

/-- Request of `DeleteUringBdev`. -/
structure UringBdevDeleteRequest where
  BdevName : String
  deriving DecidableEq, Repr

/-- Request of `ResizeUringBdev`. -/
structure UringBdevResizeRequest where
  BdevName : String
  TargetSize : Nat
  deriving DecidableEq, Repr

/-- Modelled from the spec: the request `spdk.CreateBdevMallocReq`, declared
outside the given sources, with the fields the builder sets (`NumBlocks` is an
`int`, the code converts to it). -/
structure CreateBdevMallocReq where
  Name : String
  BlockSize : Int
  NumBlocks : Int
  deriving DecidableEq, Repr

/-- Modelled from the spec: the request `spdk.AttachNVMeReq` of the two
multi-device store creations, declared outside the given sources. -/
structure AttachNVMeReq where
  NVMeIDs : List String
  deriving DecidableEq, Repr

end spdk

/-- What `os.Stat` hands back about a file: whether `Mode()&fs.ModeDevice` is set. -/
structure FileInfo where
  isDevice : Bool
  deriving DecidableEq, Repr

/-! ## Collaborator calls and the execution monad -/

/-- A collaborator call with its arguments, as recorded in the trace of a run. -/
inductive Call where
  | PoolInfo (name : String)
  | FileExists (path : String)
  | CreateFallocateFile (path : String) (size : Int)
  | CreateLoopDevice (dev : String) (file : String)
  | CreatePV (pvs : List String)
  | CreateVG (name : String) (pvs : List String)
  | GetLVStore (name : String)
  | CreateLVStore (req : spdk.CreateLVStoreReq)
  | BdevGetBdevs (name : String)
  | Stat (path : String)
  | Create (path : String)
  | Truncate (path : String) (size : Int)
  | CreateAioBdev (req : spdk.AioBdevCreateRequest)
  | CreateUringBdev (req : spdk.UringBdevCreateRequest)
  | CreateMemBdev (req : spdk.CreateBdevMallocReq)
  | CreateLVStoreFromNVMeIDs (req : spdk.AttachNVMeReq)
  | CreateLVStoreFromNVMeDevicePaths (req : spdk.AttachNVMeReq)
  | HasKmod (name : String)
  | ProbeKmod (name : String)
  | ListNVMeID
  | CheckNVMeExistence (id : String) (driver : String)
  | UnbindNVMe (id : String) (driver : String)
  | GetNVMeTypeID (id : String)
  | BindNVMeByType (typeID : String) (driver : String)
  | Sleep (seconds : Nat)
  | ListNVMePaths
  | client
  | BdevUringCreate (name : String) (file : String) (blockSize : Int)
  | BdevUringDelete (name : String)
  | BdevUringResize (name : String) (size : Nat)
  deriving DecidableEq, Repr

/-- Calls that change the host or the storage engine (everything except queries and the wait). -/
def Call.isMutating : Call → Bool
  | .CreateFallocateFile _ _ => true
  | .CreateLoopDevice _ _ => true
  | .CreatePV _ => true
  | .CreateVG _ _ => true
  | .CreateLVStore _ => true
  | .Create _ => true
  | .Truncate _ _ => true
  | .CreateAioBdev _ => true
  | .CreateUringBdev _ => true
  | .CreateMemBdev _ => true
  | .CreateLVStoreFromNVMeIDs _ => true
  | .CreateLVStoreFromNVMeDevicePaths _ => true
  | .ProbeKmod _ => true
  | .UnbindNVMe _ _ => true
  | .BindNVMeByType _ _ => true
  | .BdevUringCreate _ _ _ => true
  | .BdevUringDelete _ => true
  | .BdevUringResize _ _ => true
  | _ => false

/-- Outcome of a run: the returned value (`none` when the goroutine stopped on a
nil dereference), the host state reached and the calls issued, oldest first. -/
structure Out (σ α : Type) where
  val : Option α
  state : σ
  trace : List Call
  deriving DecidableEq

/-- A procedure over host state `σ` returning `α`. -/
def Act (σ α : Type) : Type := σ → Out σ α

namespace Act

variable {σ α β : Type}

/-- Return without touching the host. -/
def ret (a : α) : Act σ α := fun s => { val := some a, state := s, trace := [] }

/-- Sequencing: the second procedure starts in the state the first one left. -/
def seq (m : Act σ α) (f : α → Act σ β) : Act σ β := fun s =>
  match (m s).val with
  | none => { val := none, state := (m s).state, trace := (m s).trace }
  | some a =>
    { val := (f a (m s).state).val
      state := (f a (m s).state).state
      trace := (m s).trace ++ (f a (m s).state).trace }

/-- One collaborator call: it is recorded and its answer is returned. -/
def call (c : Call) (f : σ → α × σ) : Act σ α := fun s =>
  { val := some (f s).1, state := (f s).2, trace := [c] }

/-- A nil dereference: the run stops here. -/
def nilDeref : Act σ α := fun s => { val := none, state := s, trace := [] }

instance : Monad (Act σ) where
  pure := ret
  bind := seq

end Act

/-! ## Collaborator interfaces -/

/-- Modelled from the spec: the interface `engine.PoolEngineIface`, declared
outside the given sources, as far as the builder uses it. -/
structure PoolEngineIface (σ : Type) where
  PoolInfo : String → σ → (engine.StaticInfo × Option GoError) × σ

/-- Modelled from the spec: the interface `spdk.SpdkServiceIface`, declared
outside the given sources, as far as the builder uses it.  `BdevGetBdevs`
takes the `BdevName` of its request. -/
structure SpdkServiceIface (σ : Type) where
  GetLVStore : String → σ → (spdk.LVStoreInfo × Option GoError) × σ
  CreateLVStore : spdk.CreateLVStoreReq → σ → (spdk.LVStoreInfo × Option GoError) × σ
  BdevGetBdevs : String → σ → (List spdk.Bdev × Option GoError) × σ
  CreateAioBdev : spdk.AioBdevCreateRequest → σ → Option GoError × σ
  CreateUringBdev : spdk.UringBdevCreateRequest → σ → Option GoError × σ
  CreateMemBdev : spdk.CreateBdevMallocReq → σ → Option GoError × σ
  CreateLVStoreFromNVMeIDs : spdk.AttachNVMeReq → σ → (spdk.LVStoreInfo × Option GoError) × σ
  CreateLVStoreFromNVMeDevicePaths :
    spdk.AttachNVMeReq → σ → (spdk.LVStoreInfo × Option GoError) × σ

/-- Modelled from the spec: the interface `osutil.KmodUtilityIface`, declared
outside the given sources, with the two methods `prepareNVMePCI` calls. -/
structure KmodUtilityIface (σ : Type) where
  HasKmod : String → σ → Option GoError × σ
  ProbeKmod : String → σ → Option GoError × σ

/-- Modelled from the spec: the interface `osutil.PCIUtilityIface`, declared
outside the given sources, with the methods `prepareNVMePCI` calls. -/
structure PCIUtilityIface (σ : Type) where
  ListNVMeID : σ → (List String × Option GoError) × σ
  CheckNVMeExistence : String → String → σ → Option GoError × σ
  UnbindNVMe : String → String → σ → Option GoError × σ
  GetNVMeTypeID : String → σ → (String × Option GoError) × σ
  BindNVMeByType : String → String → σ → Option GoError × σ

/-- The interface `osutil.NVMeUtilityIface`. -/
structure NVMeUtilityIface (σ : Type) where
  ListNVMePaths : σ → (List String × Option GoError) × σ

/-- The package-level functions the builder calls: `misc.FileExists`,
`misc.CreateFallocateFile`, `osutil.CreateLoopDevice`, `lvm.LvmUtil.CreatePV`,
`lvm.LvmUtil.CreateVG` (its `lvm.VG` result is only logged), `os.Stat`,
`os.Create`, `(*os.File).Truncate` and `time.Sleep`. -/
structure HostIface (σ : Type) where
  FileExists : String → σ → (Bool × Option GoError) × σ
  CreateFallocateFile : String → Int → σ → Option GoError × σ
  CreateLoopDevice : String → String → σ → Option GoError × σ
  CreatePV : List String → σ → Option GoError × σ
  CreateVG : String → List String → σ → Option GoError × σ
  Stat : String → σ → (Option FileInfo × Option GoError) × σ
  Create : String → σ → Option GoError × σ
  Truncate : String → Int → σ → Option GoError × σ
  Sleep : Nat → σ → σ

/-- Modelled from the spec: the constant `osutil.NVMeDriverName` (the standard
NVMe driver), declared outside the given sources. -/
def NVMeDriverName : String := "nvme"

/-- Modelled from the spec: the constant `osutil.VfioPCIDriverName` (the
`vfio-pci` driver), declared outside the given sources. -/
def VfioPCIDriverName : String := "vfio-pci"

/-- The standard library function `filepath.Base` on a Unix path. -/
def filepathBase (path : String) : String :=
  if path = "" then "."
  else
    let stripped := (path.toList.reverse.dropWhile (fun c => c == '/')).reverse
    let last := (stripped.reverse.takeWhile (fun c => c != '/')).reverse
    if last = [] then "/" else String.mk last

/-- Rendering of a possibly nil error by `%+v`. -/
def renderErr : Option GoError → String
  | none => "<nil>"
  | some e => e.msg

/-! ## The pool builder (`pkg/agent/pool/builder.go`) -/

/-- The struct `PoolBuilder`, with the package-level functions it reaches as `host`. -/
structure PoolBuilder (σ : Type) where
  mode : v1.PoolMode
  cfg : config.StorageStack
  eng : PoolEngineIface σ
  spdk : SpdkServiceIface σ
  kmod : KmodUtilityIface σ
  pci : PCIUtilityIface σ
  nvme : NVMeUtilityIface σ
  host : HostIface σ

namespace PoolBuilder

variable {σ : Type}

/-- The string `fmt.Sprintf("/dev/loop%d", idx)`. -/
def loopDevPath (idx : Nat) : String := "/dev/loop" ++ toString idx

/-- Body of the loop `for idx, pv := range pb.cfg.PVs` of `buildLVM`: the path
appended to `pvs`, or the error the function returns with. -/
def resolvePV (pb : PoolBuilder σ) (idx : Nat) (pv : config.PV) :
    Act σ (Except GoError String) := do
  let devicePath := if pv.DevicePath = "" then loopDevPath idx else pv.DevicePath
  let has ← Act.call (.FileExists devicePath) (pb.host.FileExists devicePath)
  if has.1 then pure (.ok devicePath)
  else if pv.FilePath = "" ∨ pv.Size = 0 then
    pure (.error (Errorf ("invalid config of PV, DevicePath:" ++ devicePath ++ " FilePath:"
      ++ pv.FilePath ++ " Size:" ++ toString pv.Size)))
  else do
    let err ← Act.call (.CreateFallocateFile pv.FilePath (toInt64 pv.Size))
      (pb.host.CreateFallocateFile pv.FilePath (toInt64 pv.Size))
    match err with
    | some e => pure (.error e)
    | none =>
      let loopDev := loopDevPath idx
      let err ← Act.call (.CreateLoopDevice loopDev pv.FilePath)
        (pb.host.CreateLoopDevice loopDev pv.FilePath)
      match err with
      | some e => pure (.error e)
      | none => pure (.ok loopDev)

/-- The loop `for idx, pv := range pb.cfg.PVs` of `buildLVM`, from index `idx`
on, with `pvs` the paths accumulated so far. -/
def resolvePVs (pb : PoolBuilder σ) :
    List config.PV → Nat → List String → Act σ (Except GoError (List String))
  | [], _, pvs => pure (.ok pvs)
  | pv :: rest, idx, pvs => do
    let r ← resolvePV pb idx pv
    match r with
    | .error e => pure (.error e)
    | .ok p => resolvePVs pb rest (idx + 1) (pvs ++ [p])

/-- The method `buildLVM`. -/
def buildLVM (pb : PoolBuilder σ) (cfg : config.StorageStack) :
    Act σ (engine.StaticInfo × Option GoError) := do
  let q ← Act.call (.PoolInfo cfg.Pooling.Name) (pb.eng.PoolInfo cfg.Pooling.Name)
  match q.2 with
  | none => pure (q.1, none)
  | some e =>
    if e.isNotFoundVG then do
      let r ← resolvePVs pb pb.cfg.PVs 0 []
      match r with
      | .error e1 => pure (q.1, some e1)
      | .ok pvs =>
        if pvs.length = 0 then pure (q.1, some (Errorf "no PVs to create vg"))
        else do
          let err ← Act.call (.CreatePV pvs) (pb.host.CreatePV pvs)
          match err with
          | some e2 => pure (q.1, some e2)
          | none =>
            let err ← Act.call (.CreateVG cfg.Pooling.Name pvs)
              (pb.host.CreateVG cfg.Pooling.Name pvs)
            match err with
            | some e3 => pure (q.1, some e3)
            | none =>
              let q2 ← Act.call (.PoolInfo cfg.Pooling.Name) (pb.eng.PoolInfo cfg.Pooling.Name)
              pure (q2.1, q2.2)
    else pure (q.1, some e)

/-- The method `buildLvsAioBdev`. -/
def buildLvsAioBdev (pb : PoolBuilder σ) (cfg : config.StorageStack) :
    Act σ (Option GoError) := do
  let l ← Act.call (.BdevGetBdevs cfg.Bdev.Name) (pb.spdk.BdevGetBdevs cfg.Bdev.Name)
  if l.2.isSome && IsNotFoundDeviceError l.2 then do
    let st ← Act.call (.Stat cfg.Bdev.FilePath) (pb.host.Stat cfg.Bdev.FilePath)
    if IsNotExist st.2 then do
      let err ← Act.call (.Create cfg.Bdev.FilePath) (pb.host.Create cfg.Bdev.FilePath)
      match err with
      | some e => pure (some e)
      | none =>
        let err ← Act.call (.Truncate cfg.Bdev.FilePath (toInt64 cfg.Bdev.Size))
          (pb.host.Truncate cfg.Bdev.FilePath (toInt64 cfg.Bdev.Size))
        match err with
        | some e => pure (some e)
        | none =>
          let _ ← Act.call
            (.CreateAioBdev { BdevName := cfg.Bdev.Name, DevPath := cfg.Bdev.FilePath,
                              BlockSize := defaultBlockSize })
            (pb.spdk.CreateAioBdev { BdevName := cfg.Bdev.Name, DevPath := cfg.Bdev.FilePath,
                                     BlockSize := defaultBlockSize })
          pure none
    else do
      let _ ← Act.call
        (.CreateAioBdev { BdevName := cfg.Bdev.Name, DevPath := cfg.Bdev.FilePath,
                          BlockSize := defaultBlockSize })
        (pb.spdk.CreateAioBdev { BdevName := cfg.Bdev.Name, DevPath := cfg.Bdev.FilePath,
                                 BlockSize := defaultBlockSize })
      pure l.2
  else pure l.2

/-- The method `buildLvsUringBdev`. -/
def buildLvsUringBdev (pb : PoolBuilder σ) (cfg : config.StorageStack) :
    Act σ (Option GoError) := do
  let l ← Act.call (.BdevGetBdevs cfg.Bdev.Name) (pb.spdk.BdevGetBdevs cfg.Bdev.Name)
  if l.2.isSome && IsNotFoundDeviceError l.2 then do
    let st ← Act.call (.Stat cfg.Bdev.FilePath) (pb.host.Stat cfg.Bdev.FilePath)
    if IsNotExist st.2 then pure l.2
    else
      match st.1 with
      | none => Act.nilDeref
      | some info =>
        if !info.isDevice then pure l.2
        else do
          let err ← Act.call
            (.CreateUringBdev { BdevName := cfg.Bdev.Name, DevPath := cfg.Bdev.FilePath,
                                BlockSize := defaultBlockSize })
            (pb.spdk.CreateUringBdev { BdevName := cfg.Bdev.Name, DevPath := cfg.Bdev.FilePath,
                                       BlockSize := defaultBlockSize })
          pure err
  else pure l.2

/-- The method `buildLvsMemBdev`. -/
def buildLvsMemBdev (pb : PoolBuilder σ) (cfg : config.StorageStack) :
    Act σ (Option GoError) := do
  let l ← Act.call (.BdevGetBdevs cfg.Bdev.Name) (pb.spdk.BdevGetBdevs cfg.Bdev.Name)
  if l.2.isSome && IsNotFoundDeviceError l.2 then do
    let blocks := cfg.Bdev.Size / defaultBlockSize
    if blocks = 0 then
      pure (some (Errorf ("invalid bdev size: " ++ toString cfg.Bdev.Size
        ++ ", should be bigger than block size 512 byte")))
    else do
      let err ← Act.call
        (.CreateMemBdev { Name := cfg.Bdev.Name, BlockSize := defaultBlockSize,
                          NumBlocks := toInt64 blocks })
        (pb.spdk.CreateMemBdev { Name := cfg.Bdev.Name, BlockSize := defaultBlockSize,
                                 NumBlocks := toInt64 blocks })
      pure err
  else pure l.2

/-- The loop `for _, id := range nvmeIDList` of `prepareNVMePCI`: the error it
returns with, if any. -/
def unbindEach (pb : PoolBuilder σ) : List String → Act σ (Option GoError)
  | [] => pure none
  | id :: rest => do
    let errExist ← Act.call (.CheckNVMeExistence id NVMeDriverName)
      (pb.pci.CheckNVMeExistence id NVMeDriverName)
    match errExist with
    | none =>
      let err ← Act.call (.UnbindNVMe id NVMeDriverName) (pb.pci.UnbindNVMe id NVMeDriverName)
      match err with
      | some e => pure (some e)
      | none => unbindEach pb rest
    | some _ => unbindEach pb rest

/-- The method `prepareNVMePCI`. -/
def prepareNVMePCI (pb : PoolBuilder σ) : Act σ (List String × Option GoError) := do
  let has1 ← Act.call (.HasKmod "vfio_pci") (pb.kmod.HasKmod "vfio_pci")
  let err1 ← (match has1 with
    | some _ => Act.call (.ProbeKmod "vfio-pci") (pb.kmod.ProbeKmod "vfio-pci")
    | none => pure none)
  match err1 with
  | some e => pure ([], some e)
  | none =>
    let has2 ← Act.call (.HasKmod "vfio_iommu_type1") (pb.kmod.HasKmod "vfio_iommu_type1")
    let err2 ← (match has2 with
      | some _ => Act.call (.ProbeKmod "vfio_iommu_type1") (pb.kmod.ProbeKmod "vfio_iommu_type1")
      | none => pure none)
    match err2 with
    | some e => pure ([], some e)
    | none =>
      let ids ← Act.call .ListNVMeID pb.pci.ListNVMeID
      match ids.2 with
      | some e => pure ([], some e)
      | none =>
        match ids.1 with
        | [] => pure (ids.1, none)
        | first :: _ => do
          let err ← unbindEach pb ids.1
          match err with
          | some e => pure ([], some e)
          | none =>
            let ty ← Act.call (.GetNVMeTypeID first) (pb.pci.GetNVMeTypeID first)
            match ty.2 with
            | some e => pure ([], some e)
            | none =>
              let err ← Act.call (.BindNVMeByType ty.1 VfioPCIDriverName)
                (pb.pci.BindNVMeByType ty.1 VfioPCIDriverName)
              match err with
              | some e => pure ([], some e)
              | none =>
                let _ ← Act.call (.Sleep 5) (fun s => ((), pb.host.Sleep 5 s))
                pure (ids.1, none)

/-- The method `prepareNVMeIOUring`. -/
def prepareNVMeIOUring (pb : PoolBuilder σ) : Act σ (List String × Option GoError) := do
  let r ← Act.call .ListNVMePaths pb.nvme.ListNVMePaths
  match r.2 with
  | some e => pure ([], some e)
  | none => pure (r.1, none)

/-- The loop `for _, path := range nvmePathList` of `buildLvsRaidBdev`; every
failure inside it is logged and skipped. -/
def uringEach (pb : PoolBuilder σ) (cfg : config.StorageStack) : List String → Act σ Unit
  | [] => pure ()
  | path :: rest => do
    let name := filepathBase path
    let l ← Act.call (.BdevGetBdevs name) (pb.spdk.BdevGetBdevs name)
    if l.2.isSome && IsNotFoundDeviceError l.2 then do
      let st ← Act.call (.Stat cfg.Bdev.FilePath) (pb.host.Stat cfg.Bdev.FilePath)
      if IsNotExist st.2 then uringEach pb cfg rest
      else
        match st.1 with
        | none => Act.nilDeref
        | some info =>
          if !info.isDevice then uringEach pb cfg rest
          else do
            let _ ← Act.call
              (.CreateUringBdev { BdevName := name, DevPath := path,
                                  BlockSize := defaultBlockSize })
              (pb.spdk.CreateUringBdev { BdevName := name, DevPath := path,
                                         BlockSize := defaultBlockSize })
            uringEach pb cfg rest
    else uringEach pb cfg rest

/-- The method `buildLvsRaidBdev`. -/
def buildLvsRaidBdev (pb : PoolBuilder σ) (cfg : config.StorageStack) :
    Act σ (engine.StaticInfo × Option GoError) := do
  let r ← (match cfg.Bdev.Type_ with
    | .RaidBdevType => do
      let ids ← pb.prepareNVMePCI
      match ids.2 with
      | some e => pure (Except.error e)
      | none =>
        let c ← Act.call (.CreateLVStoreFromNVMeIDs { NVMeIDs := ids.1 })
          (pb.spdk.CreateLVStoreFromNVMeIDs { NVMeIDs := ids.1 })
        match c.2 with
        | some e => pure (Except.error e)
        | none => pure (Except.ok c.1)
    | .UringBdevType => do
      let paths ← pb.prepareNVMeIOUring
      match paths.2 with
      | some e => pure (Except.error e)
      | none =>
        pb.uringEach cfg paths.1
        let c ← Act.call (.CreateLVStoreFromNVMeDevicePaths { NVMeIDs := paths.1 })
          (pb.spdk.CreateLVStoreFromNVMeDevicePaths { NVMeIDs := paths.1 })
        match c.2 with
        | some e => pure (Except.error e)
        | none => pure (Except.ok c.1)
    | _ => pure (Except.ok spdk.LVStoreInfo.zero))
  match r with
  | .error e => pure (engine.StaticInfo.zero, some e)
  | .ok lvs =>
    pure ({ LVM := none
            LVS := some { Name := lvs.Name
                          UUID := lvs.UUID
                          BaseBdev := lvs.BaseBdev
                          ClusterSize := lvs.ClusterSize
                          TotalDataCluster := lvs.TotalDataClusters
                          BlockSize := lvs.BlockSize
                          Bytes := toUint64 (wrapInt64 (lvs.ClusterSize * lvs.TotalDataClusters)) } },
          none)

/-- The tail of `buildSpdkLVS` from the comment `create lvs` on. -/
def createLvs (pb : PoolBuilder σ) (cfg : config.StorageStack) :
    Act σ (engine.StaticInfo × Option GoError) := do
  let c ← Act.call
    (.CreateLVStore { BdevName := cfg.Bdev.Name, LVStoreName := cfg.Pooling.Name })
    (pb.spdk.CreateLVStore { BdevName := cfg.Bdev.Name, LVStoreName := cfg.Pooling.Name })
  match c.2 with
  | some e => pure (engine.StaticInfo.zero, some e)
  | none =>
    pure ({ LVM := none
            LVS := some { Name := c.1.Name
                          UUID := c.1.UUID
                          BaseBdev := c.1.BaseBdev
                          ClusterSize := c.1.ClusterSize
                          TotalDataCluster := c.1.TotalDataClusters
                          BlockSize := c.1.BlockSize
                          Bytes := toUint64 (wrapInt64 (c.1.ClusterSize * c.1.TotalDataClusters)) } },
          none)

/-- The lines of `buildSpdkLVS` after its `switch`: return on a non-nil `err`,
otherwise go on to `create lvs`. -/
def checkThenCreateLvs (pb : PoolBuilder σ) (cfg : config.StorageStack)
    (err : Option GoError) : Act σ (engine.StaticInfo × Option GoError) :=
  match err with
  | some e => pure (engine.StaticInfo.zero, some e)
  | none => pb.createLvs cfg

/-- The method `buildSpdkLVS`. -/
def buildSpdkLVS (pb : PoolBuilder σ) (cfg : config.StorageStack) :
    Act σ (engine.StaticInfo × Option GoError) := do
  let g ← Act.call (.GetLVStore cfg.Bdev.Name) (pb.spdk.GetLVStore cfg.Bdev.Name)
  match g.2 with
  | none =>
    pure ({ LVM := none
            LVS := some { Name := g.1.Name
                          UUID := g.1.UUID
                          BaseBdev := g.1.BaseBdev
                          ClusterSize := g.1.ClusterSize
                          TotalDataCluster := g.1.TotalDataClusters
                          BlockSize := g.1.BlockSize
                          Bytes := toUint64 (wrapInt64 (g.1.ClusterSize * g.1.TotalDataClusters)) } },
          none)
  | some e =>
    if IsNotFoundDeviceError (some e) then
      match cfg.Bdev.Type_ with
      | .AioBdevType => do
        let err ← pb.buildLvsAioBdev cfg
        pb.checkThenCreateLvs cfg err
      | .UringBdevType => do
        let err ← pb.buildLvsUringBdev cfg
        pb.checkThenCreateLvs cfg err
      | .MemBdevType => do
        let err ← pb.buildLvsMemBdev cfg
        pb.checkThenCreateLvs cfg err
      | .RaidBdevType => pb.buildLvsRaidBdev cfg
      | .other t => pb.checkThenCreateLvs cfg (some (Errorf ("not supported bdev type " ++ t)))
    else pb.createLvs cfg

/-- The method `Build`. -/
def Build (pb : PoolBuilder σ) : Act σ (engine.StaticInfo × Option GoError) :=
  match pb.mode with
  | .PoolModeKernelLVM => pb.buildLVM pb.cfg
  | .PoolModeSpdkLVStore => pb.buildSpdkLVS pb.cfg
  | m => pure (engine.StaticInfo.zero, some (Errorf ("invalid agent Mode " ++ m.render)))

end PoolBuilder

/-! ## The io_uring bdev operations (`pkg/spdk/service_uring.go`) -/

namespace spdk

/-- The struct `SpdkService` as the three uring operations see it: `client`
re-acquires the RPC connection (only its error matters here), `FileExists` is
`misc.FileExists`, and the remaining fields are the methods of the RPC client
`svc.cli` (of `BdevUringCreate` only the error is read). -/
structure SpdkService (σ : Type) where
  client : σ → Option GoError × σ
  FileExists : String → σ → (Bool × Option GoError) × σ
  BdevGetBdevs : String → σ → (List Bdev × Option GoError) × σ
  BdevUringCreate : String → String → Int → σ → Option GoError × σ
  BdevUringDelete : String → σ → (Bool × Option GoError) × σ
  BdevUringResize : String → Nat → σ → (Bool × Option GoError) × σ

namespace SpdkService

variable {σ : Type}

/-- The method `CreateUringBdev`. -/
def CreateUringBdev (svc : SpdkService σ) (req : UringBdevCreateRequest) :
    Act σ (Option GoError) := do
  let cerr ← Act.call .client svc.client
  match cerr with
  | some e => pure (some e)
  | none =>
    let bdevName := req.BdevName
    let devPath := req.DevPath
    let blockSize := req.BlockSize
    let fe ← Act.call (.FileExists devPath) (svc.FileExists devPath)
    if fe.2.isSome || !fe.1 then
      pure (some (Errorf ("devPath " ++ devPath ++ " not exists, " ++ toString fe.1 ++ ", "
        ++ renderErr fe.2)))
    else do
      let l ← Act.call (.BdevGetBdevs bdevName) (svc.BdevGetBdevs bdevName)
      if l.2.isSome && !IsNotFoundDeviceError l.2 then pure l.2
      else if l.1.any (fun item => item.Name == bdevName) then pure l.2
      else do
        let err ← Act.call (.BdevUringCreate bdevName devPath blockSize)
          (svc.BdevUringCreate bdevName devPath blockSize)
        match err with
        | some e => pure (some e)
        | none => pure none

/-- The method `DeleteUringBdev`. -/
def DeleteUringBdev (svc : SpdkService σ) (req : UringBdevDeleteRequest) :
    Act σ (Option GoError) := do
  let cerr ← Act.call .client svc.client
  match cerr with
  | some e => pure (some e)
  | none =>
    let bdevName := req.BdevName
    let l ← Act.call (.BdevGetBdevs bdevName) (svc.BdevGetBdevs bdevName)
    if l.2.isSome && !IsNotFoundDeviceError l.2 then pure l.2
    else if l.1.length = 0 then pure none
    else
      let foundBdev := l.1.any (fun item => item.Name == bdevName)
      if foundBdev then do
        let d ← Act.call (.BdevUringDelete bdevName) (svc.BdevUringDelete bdevName)
        if d.2.isSome || !d.1 then
          pure (some (Errorf ("delete UringBdev " ++ bdevName ++ " failed: " ++ toString d.1
            ++ ", " ++ renderErr d.2)))
        else pure l.2
      else pure l.2

/-- The method `ResizeUringBdev`. -/
def ResizeUringBdev (svc : SpdkService σ) (req : UringBdevResizeRequest) :
    Act σ (Option GoError) := do
  let cerr ← Act.call .client svc.client
  match cerr with
  | some e => pure (some e)
  | none =>
    let l ← Act.call (.BdevGetBdevs req.BdevName) (svc.BdevGetBdevs req.BdevName)
    match l.2 with
    | some e => pure (some e)
    | none =>
      let r ← Act.call (.BdevUringResize req.BdevName req.TargetSize)
        (svc.BdevUringResize req.BdevName req.TargetSize)
      if r.2.isSome || !r.1 then
        pure (some (Errorf ("resize UringBdev " ++ req.BdevName ++ " failed: " ++ toString r.1
          ++ ", " ++ renderErr r.2)))
      else pure r.2

end SpdkService

end spdk

/-! ## Specification-side definitions -/

/-- The translation of an engine answer into the output descriptor as the
specification words it: the six fields are copied and the byte count is the
product of cluster size and cluster count, here reduced to 64 bits. -/
def describeLVS (lvs : spdk.LVStoreInfo) : v1.SpdkLVStore :=
  { Name := lvs.Name
    UUID := lvs.UUID
    BaseBdev := lvs.BaseBdev
    ClusterSize := lvs.ClusterSize
    TotalDataCluster := lvs.TotalDataClusters
    BlockSize := lvs.BlockSize
    Bytes := ((lvs.ClusterSize * lvs.TotalDataClusters) % 2 ^ 64).toNat }

/-- The path a physical volume at index `idx` resolves to, given whether its
explicit device path exists on the host. -/
def resolvedPath (pv : config.PV) (idx : Nat) (devExists : Bool) : String :=
  if pv.DevicePath ≠ "" ∧ devExists = true then pv.DevicePath
  else "/dev/loop" ++ toString idx

/-- The store answers `Build` can receive from the storage engine: `lvs` was
returned without error by `GetLVStore`, by `CreateLVStore`, or by
`CreateLVStoreFromNVMeIDs`, in some host state. -/
def PoolBuilder.HandedBack {σ : Type} (pb : PoolBuilder σ) (lvs : spdk.LVStoreInfo) : Prop :=
  (∃ t, (pb.spdk.GetLVStore pb.cfg.Bdev.Name t).1 = (lvs, none))
  ∨ (∃ t, (pb.spdk.CreateLVStore
        { BdevName := pb.cfg.Bdev.Name, LVStoreName := pb.cfg.Pooling.Name } t).1 = (lvs, none))
  ∨ (∃ ids t, (pb.spdk.CreateLVStoreFromNVMeIDs { NVMeIDs := ids } t).1 = (lvs, none))

/-- Every call a procedure issues, from whatever host state it starts,
satisfies `P`. -/
structure Act.Emits {σ α : Type} (P : Call → Prop) (m : Act σ α) : Prop where
  all : ∀ s, ∀ c ∈ (m s).trace, P c

/-- The two LVM creation calls. -/
def Call.isLvmCreate : Call → Bool
  | .CreatePV _ => true
  | .CreateVG _ _ => true
  | _ => false

/-- The calls only the io_uring multi-device variant of `buildLvsRaidBdev` makes. -/
def Call.isUringRaid : Call → Bool
  | .ListNVMePaths => true
  | .CreateLVStoreFromNVMeDevicePaths _ => true
  | _ => false

/-- The calls of the RAID sub-path: kernel-module, PCI and NVMe utilities, the
wait, and the two multi-device store creations. -/
def Call.isRaidPath : Call → Bool
  | .HasKmod _ => true
  | .ProbeKmod _ => true
  | .ListNVMeID => true
  | .CheckNVMeExistence _ _ => true
  | .UnbindNVMe _ _ => true
  | .GetNVMeTypeID _ => true
  | .BindNVMeByType _ _ => true
  | .Sleep _ => true
  | .ListNVMePaths => true
  | .CreateLVStoreFromNVMeIDs _ => true
  | .CreateLVStoreFromNVMeDevicePaths _ => true
  | _ => false

/-! ## Sample hosts

Concrete collaborators over a host state that counts the mutating calls
served so far; every call succeeds unless a field is overridden. -/

namespace sample

/-- The "No such device" error of the storage engine. -/
def errNoDevice : GoError :=
  { msg := "No such device", isNotFoundVG := false, isNotFoundDevice := true, isNotExist := false }

/-- The sentinel `engine.ErrNotFoundVG`. -/
def errNotFoundVG : GoError :=
  { msg := "not found vg", isNotFoundVG := true, isNotFoundDevice := false, isNotExist := false }

/-- An error that is none of the sentinels. -/
def errTransport : GoError := Errorf "connection refused"

def vg0 : v1.VG := { Name := "vg0", UUID := "vg-uuid", Bytes := 1073741824 }

def lvs0 : spdk.LVStoreInfo :=
  { Name := "lvs0", UUID := "lvs-uuid", BaseBdev := "nvme0", ClusterSize := 4194304,
    TotalDataClusters := 255, BlockSize := 512 }

def cfg0 : config.StorageStack :=
  { Pooling := { Name := "vg0" }
    PVs := [{ DevicePath := "", FilePath := "/data/pv0.img", Size := 1073741824 }]
    Bdev := { Type_ := .MemBdevType, Name := "nvme0", Size := 1024, FilePath := "/data/bdev0.img" } }

def eng : PoolEngineIface Nat :=
  { PoolInfo := fun _ s => (({ LVM := some vg0, LVS := none }, none), s) }

def spdkSvc : SpdkServiceIface Nat :=
  { GetLVStore := fun _ s => ((lvs0, none), s)
    CreateLVStore := fun _ s => ((lvs0, none), s + 1)
    BdevGetBdevs := fun n s => (([{ Name := n }], none), s)
    CreateAioBdev := fun _ s => (none, s + 1)
    CreateUringBdev := fun _ s => (none, s + 1)
    CreateMemBdev := fun _ s => (none, s + 1)
    CreateLVStoreFromNVMeIDs := fun _ s => ((lvs0, none), s + 1)
    CreateLVStoreFromNVMeDevicePaths := fun _ s => ((lvs0, none), s + 1) }

def kmod : KmodUtilityIface Nat :=
  { HasKmod := fun _ s => (none, s)
    ProbeKmod := fun _ s => (none, s + 1) }

def pci : PCIUtilityIface Nat :=
  { ListNVMeID := fun s => ((["0000:00:04.0"], none), s)
    CheckNVMeExistence := fun _ _ s => (none, s)
    UnbindNVMe := fun _ _ s => (none, s + 1)
    GetNVMeTypeID := fun _ s => (("1d0f 8061", none), s)
    BindNVMeByType := fun _ _ s => (none, s + 1) }

def nvme : NVMeUtilityIface Nat :=
  { ListNVMePaths := fun s => ((["/dev/nvme0n1"], none), s) }

def host : HostIface Nat :=
  { FileExists := fun _ s => ((true, none), s)
    CreateFallocateFile := fun _ _ s => (none, s + 1)
    CreateLoopDevice := fun _ _ s => (none, s + 1)
    CreatePV := fun _ s => (none, s + 1)
    CreateVG := fun _ _ s => (none, s + 1)
    Stat := fun _ s => ((some { isDevice := false }, none), s)
    Create := fun _ s => (none, s + 1)
    Truncate := fun _ _ s => (none, s + 1)
    Sleep := fun _ s => s }

/-- A builder in kernel mode on a host where the volume group already exists. -/
def kernelBuilder : PoolBuilder Nat :=
  { mode := .PoolModeKernelLVM, cfg := cfg0, eng := eng, spdk := spdkSvc, kmod := kmod,
    pci := pci, nvme := nvme, host := host }

/-- A builder in SPDK mode on a host where the store already exists. -/
def spdkBuilder : PoolBuilder Nat := { kernelBuilder with mode := .PoolModeSpdkLVStore }

/-- Kernel mode on a fresh host: no volume group until the first mutation has
been served, and no device node exists. -/
def freshKernelBuilder : PoolBuilder Nat :=
  { kernelBuilder with
    eng := { PoolInfo := fun _ s =>
      if s = 0 then ((engine.StaticInfo.zero, some errNotFoundVG), s)
      else (({ LVM := some vg0, LVS := none }, none), s) }
    host := { host with FileExists := fun _ s => ((false, none), s) } }

/-- SPDK mode on a host whose store query fails for a reason other than the
device-not-found sentinel. -/
def brokenQueryBuilder : PoolBuilder Nat :=
  { spdkBuilder with
    spdk := { spdkSvc with
      GetLVStore := fun _ s => ((spdk.LVStoreInfo.zero, some errTransport), s) } }

/-- A fresh storage engine: no store and no bdev yet. -/
def freshSpdk : SpdkServiceIface Nat :=
  { spdkSvc with
    GetLVStore := fun _ s => ((spdk.LVStoreInfo.zero, some errNoDevice), s)
    BdevGetBdevs := fun _ s => (([], some errNoDevice), s) }

/-- SPDK mode, Aio base device, fresh engine, backing file already on disk. -/
def aioBuilder : PoolBuilder Nat :=
  { spdkBuilder with
    cfg := { cfg0 with Bdev := { cfg0.Bdev with Type_ := .AioBdevType } }
    spdk := freshSpdk }

/-- SPDK mode, memory base device of 1024 bytes, fresh engine. -/
def memBuilder : PoolBuilder Nat := { spdkBuilder with spdk := freshSpdk }

/-- SPDK mode, memory base device of 256 bytes, fresh engine. -/
def smallMemBuilder : PoolBuilder Nat :=
  { memBuilder with cfg := { cfg0 with Bdev := { cfg0.Bdev with Size := 256 } } }

/-- SPDK mode, Raid base device, fresh engine, no NVMe controller on the PCI
bus; the engine accepts a store creation from an empty identity list. -/
def raidBuilder : PoolBuilder Nat :=
  { spdkBuilder with
    cfg := { cfg0 with Bdev := { cfg0.Bdev with Type_ := .RaidBdevType } }
    spdk := freshSpdk
    pci := { pci with ListNVMeID := fun s => (([], none), s) } }

/-- SPDK mode on a host whose existing store reports 2^32 clusters of 2^32 bytes. -/
def hugeStoreBuilder : PoolBuilder Nat :=
  { spdkBuilder with
    spdk := { spdkSvc with
      GetLVStore := fun _ s =>
        (({ lvs0 with ClusterSize := 4294967296, TotalDataClusters := 4294967296 }, none), s) } }

/-- SPDK mode, Raid base device, fresh engine, one NVMe controller bound to the
kernel driver. -/
def raidOneBuilder : PoolBuilder Nat := { raidBuilder with pci := pci }

/-- An SPDK service whose engine already has a bdev of every requested name;
every device path exists. -/
def svcHasBdev : spdk.SpdkService Nat :=
  { client := fun s => (none, s)
    FileExists := fun _ s => ((true, none), s)
    BdevGetBdevs := fun n s => (([{ Name := n }], none), s)
    BdevUringCreate := fun _ _ _ s => (none, s + 1)
    BdevUringDelete := fun _ s => ((true, none), s + 1)
    BdevUringResize := fun _ _ s => ((true, none), s + 1) }

/-- The same service on a host where no device path exists. -/
def svcNoPath : spdk.SpdkService Nat :=
  { svcHasBdev with FileExists := fun _ s => ((false, none), s) }

/-- An SPDK service whose listing answers the requested name together with the
"No such device" error. -/
def svcListedWithError : spdk.SpdkService Nat :=
  { svcHasBdev with BdevGetBdevs := fun n s => (([{ Name := n }], some errNoDevice), s) }

/-- An SPDK service whose listing answers one other bdev, `"Y"`, together with
the "No such device" error. -/
def svcOtherWithError : spdk.SpdkService Nat :=
  { svcHasBdev with BdevGetBdevs := fun _ s => (([{ Name := "Y" }], some errNoDevice), s) }

/-- An SPDK service whose engine has no bdev: listings fail with "No such device". -/
def svcNoBdev : spdk.SpdkService Nat :=
  { svcHasBdev with BdevGetBdevs := fun _ s => (([], some errNoDevice), s) }

end sample

/-! ## Running procedures -/

namespace Act

variable {σ α β : Type}

theorem run_pure (a : α) (s : σ) :
    (pure a : Act σ α) s = { val := some a, state := s, trace := [] } := rfl

theorem run_call_bind (c : Call) (g : σ → α × σ) (f : α → Act σ β) (s : σ) :
    (Act.call c g >>= f) s =
      { val := (f (g s).1 (g s).2).val
        state := (f (g s).1 (g s).2).state
        trace := c :: (f (g s).1 (g s).2).trace } := rfl

theorem run_call (c : Call) (g : σ → α × σ) (s : σ) :
    (Act.call c g) s = { val := some (g s).1, state := (g s).2, trace := [c] } := rfl

theorem run_bind (m : Act σ α) (f : α → Act σ β) (s : σ) :
    (m >>= f) s =
      match (m s).val with
      | none => { val := none, state := (m s).state, trace := (m s).trace }
      | some a =>
        { val := (f a (m s).state).val
          state := (f a (m s).state).state
          trace := (m s).trace ++ (f a (m s).state).trace } := rfl

theorem run_pure_bind (a : α) (f : α → Act σ β) (s : σ) :
    ((pure a : Act σ α) >>= f) s = f a s := rfl

theorem run_bind_of_val (m : Act σ α) (f : α → Act σ β) (s : σ) (a : α)
    (h : (m s).val = some a) :
    (m >>= f) s =
      { val := (f a (m s).state).val
        state := (f a (m s).state).state
        trace := (m s).trace ++ (f a (m s).state).trace } := by
  rw [run_bind, h]

theorem val_bind (m : Act σ α) (f : α → Act σ β) (s : σ) (r : β)
    (h : ((m >>= f) s).val = some r) :
    ∃ a, (m s).val = some a ∧ (f a (m s).state).val = some r := by
  rw [run_bind] at h
  cases h1 : (m s).val with
  | none => rw [h1] at h; simp at h
  | some a => rw [h1] at h; exact ⟨a, rfl, h⟩

theorem bind_assoc (m : Act σ α) (g : α → Act σ β) {γ : Type} (k : β → Act σ γ) :
    (m >>= g) >>= k = m >>= fun a => g a >>= k := by
  funext s
  simp only [run_bind]
  cases h1 : (m s).val with
  | none => rfl
  | some a =>
    simp only []
    cases h2 : (g a (m s).state).val with
    | none => simp
    | some b => simp

theorem run_bind_of_eq (m : Act σ α) (f : α → Act σ β) (s s1 : σ) (a : α) (t : List Call)
    (h : m s = { val := some a, state := s1, trace := t }) :
    (m >>= f) s =
      { val := (f a s1).val, state := (f a s1).state, trace := t ++ (f a s1).trace } := by
  rw [run_bind, h]

theorem Emits.pure {P : Call → Prop} (a : α) : Emits P (pure a : Act σ α) := by
  constructor
  intro s c hc
  simp [run_pure] at hc

theorem Emits.nilDeref {P : Call → Prop} : Emits P (Act.nilDeref : Act σ α) := by
  constructor
  intro s c hc
  simp [Act.nilDeref] at hc

theorem Emits.call {P : Call → Prop} (c : Call) (g : σ → α × σ) (h : P c) :
    Emits P (Act.call c g) := by
  constructor
  intro s c1 hc
  simp only [run_call, List.mem_singleton] at hc
  rw [hc]
  exact h

theorem Emits.bind {P : Call → Prop} (m : Act σ α) (f : α → Act σ β)
    (hm : Emits P m) (hf : ∀ a, Emits P (f a)) : Emits P (m >>= f) := by
  constructor
  intro s c hc
  rw [run_bind] at hc
  cases h : (m s).val with
  | none =>
    rw [h] at hc
    exact hm.all s c hc
  | some a =>
    rw [h] at hc
    rcases List.mem_append.mp hc with h1 | h1
    · exact hm.all s c h1
    · exact (hf a).all _ c h1

end Act

/-! ## Claims -/

namespace PoolBuilder

variable {σ : Type}

theorem toUint64_wrapInt64 (x : Int) : toUint64 (wrapInt64 x) = (x % 2 ^ 64).toNat := by
  unfold toUint64 wrapInt64
  congr 1
  omega

theorem run_createLvs (pb : PoolBuilder σ) (cfg : config.StorageStack) (s : σ) :
    pb.createLvs cfg s =
      { val := some
          (match (pb.spdk.CreateLVStore
              { BdevName := cfg.Bdev.Name, LVStoreName := cfg.Pooling.Name } s).1.2 with
           | some e => (engine.StaticInfo.zero, some e)
           | none =>
             ({ LVM := none
                LVS := some (describeLVS (pb.spdk.CreateLVStore
                  { BdevName := cfg.Bdev.Name, LVStoreName := cfg.Pooling.Name } s).1.1) }, none))
        state := (pb.spdk.CreateLVStore
          { BdevName := cfg.Bdev.Name, LVStoreName := cfg.Pooling.Name } s).2
        trace := [Call.CreateLVStore
          { BdevName := cfg.Bdev.Name, LVStoreName := cfg.Pooling.Name }] } := by
  cases h : (pb.spdk.CreateLVStore
      { BdevName := cfg.Bdev.Name, LVStoreName := cfg.Pooling.Name } s).1.2 <;>
    simp [createLvs, Act.run_call_bind, h, Act.run_pure, describeLVS, toUint64_wrapInt64]

/-- C1. Idempotence of `Build` when the pool already exists: in kernel mode, if
`PoolInfo(cfg.Pooling.Name)` returns no error, `Build` succeeds with exactly
the descriptor `PoolInfo` returned and its only call is that query; in SPDK
mode, if `GetLVStore(cfg.Bdev.Name)` returns no error, `Build` succeeds and its
only call is that query.  So no mutating call is issued, and a second `Build`
whose query gets the same answer returns the identical result, again without a
mutating call. -/
theorem C1_build_idempotent_when_pool_exists (pb : PoolBuilder σ) (s : σ) :
    (pb.mode = .PoolModeKernelLVM → (pb.eng.PoolInfo pb.cfg.Pooling.Name s).1.2 = none →
      pb.Build s =
        { val := some ((pb.eng.PoolInfo pb.cfg.Pooling.Name s).1.1, none)
          state := (pb.eng.PoolInfo pb.cfg.Pooling.Name s).2
          trace := [Call.PoolInfo pb.cfg.Pooling.Name] }
      ∧ (∀ c ∈ (pb.Build s).trace, c.isMutating = false)
      ∧ ((pb.eng.PoolInfo pb.cfg.Pooling.Name (pb.Build s).state).1
            = (pb.eng.PoolInfo pb.cfg.Pooling.Name s).1 →
          (pb.Build (pb.Build s).state).val = (pb.Build s).val
          ∧ ∀ c ∈ (pb.Build (pb.Build s).state).trace, c.isMutating = false))
    ∧ (pb.mode = .PoolModeSpdkLVStore → (pb.spdk.GetLVStore pb.cfg.Bdev.Name s).1.2 = none →
      pb.Build s =
        { val := some ({ LVM := none
                         LVS := some (describeLVS (pb.spdk.GetLVStore pb.cfg.Bdev.Name s).1.1) },
                       none)
          state := (pb.spdk.GetLVStore pb.cfg.Bdev.Name s).2
          trace := [Call.GetLVStore pb.cfg.Bdev.Name] }
      ∧ (∀ c ∈ (pb.Build s).trace, c.isMutating = false)
      ∧ ((pb.spdk.GetLVStore pb.cfg.Bdev.Name (pb.Build s).state).1
            = (pb.spdk.GetLVStore pb.cfg.Bdev.Name s).1 →
          (pb.Build (pb.Build s).state).val = (pb.Build s).val
          ∧ ∀ c ∈ (pb.Build (pb.Build s).state).trace, c.isMutating = false)) := by
  constructor
  · intro hmode hq
    have key : ∀ t, (pb.eng.PoolInfo pb.cfg.Pooling.Name t).1.2 = none →
        pb.Build t =
          { val := some ((pb.eng.PoolInfo pb.cfg.Pooling.Name t).1.1, none)
            state := (pb.eng.PoolInfo pb.cfg.Pooling.Name t).2
            trace := [Call.PoolInfo pb.cfg.Pooling.Name] } := by
      intro t ht
      simp [Build, hmode, buildLVM, Act.run_call_bind, ht, Act.run_pure]
    refine ⟨key s hq, ?_, ?_⟩
    · rw [key s hq]; simp [Call.isMutating]
    · intro hsame
      have hq2 : (pb.eng.PoolInfo pb.cfg.Pooling.Name (pb.Build s).state).1.2 = none := by
        rw [hsame]; exact hq
      rw [key _ hq2, hsame]
      rw [key s hq]
      simp [Call.isMutating]
  · intro hmode hq
    have key : ∀ t, (pb.spdk.GetLVStore pb.cfg.Bdev.Name t).1.2 = none →
        pb.Build t =
          { val := some ({ LVM := none
                           LVS := some (describeLVS (pb.spdk.GetLVStore pb.cfg.Bdev.Name t).1.1) },
                         none)
            state := (pb.spdk.GetLVStore pb.cfg.Bdev.Name t).2
            trace := [Call.GetLVStore pb.cfg.Bdev.Name] } := by
      intro t ht
      simp [Build, hmode, buildSpdkLVS, Act.run_call_bind, ht, Act.run_pure, describeLVS,
        toUint64_wrapInt64]
    refine ⟨key s hq, ?_, ?_⟩
    · rw [key s hq]; simp [Call.isMutating]
    · intro hsame
      have hq2 : (pb.spdk.GetLVStore pb.cfg.Bdev.Name (pb.Build s).state).1.2 = none := by
        rw [hsame]; exact hq
      rw [key _ hq2, hsame]
      rw [key s hq]
      simp [Call.isMutating]

/-- Witness of C1 on the sample hosts: a kernel-mode and an SPDK-mode builder
whose pool already exists. -/
theorem C1_witness :
    (sample.kernelBuilder.Build 0 =
        { val := some ({ LVM := some sample.vg0, LVS := none }, none)
          state := 0
          trace := [Call.PoolInfo "vg0"] }
      ∧ (∀ c ∈ (sample.kernelBuilder.Build 0).trace, c.isMutating = false)
      ∧ ((sample.kernelBuilder.eng.PoolInfo "vg0" (sample.kernelBuilder.Build 0).state).1
            = (sample.kernelBuilder.eng.PoolInfo "vg0" 0).1 →
          (sample.kernelBuilder.Build (sample.kernelBuilder.Build 0).state).val
            = (sample.kernelBuilder.Build 0).val
          ∧ ∀ c ∈ (sample.kernelBuilder.Build (sample.kernelBuilder.Build 0).state).trace,
              c.isMutating = false))
    ∧ (sample.spdkBuilder.Build 0 =
        { val := some ({ LVM := none, LVS := some (describeLVS sample.lvs0) }, none)
          state := 0
          trace := [Call.GetLVStore "nvme0"] }
      ∧ (∀ c ∈ (sample.spdkBuilder.Build 0).trace, c.isMutating = false)
      ∧ ((sample.spdkBuilder.spdk.GetLVStore "nvme0" (sample.spdkBuilder.Build 0).state).1
            = (sample.spdkBuilder.spdk.GetLVStore "nvme0" 0).1 →
          (sample.spdkBuilder.Build (sample.spdkBuilder.Build 0).state).val
            = (sample.spdkBuilder.Build 0).val
          ∧ ∀ c ∈ (sample.spdkBuilder.Build (sample.spdkBuilder.Build 0).state).trace,
              c.isMutating = false)) :=
  ⟨(C1_build_idempotent_when_pool_exists sample.kernelBuilder 0).1 rfl rfl,
   (C1_build_idempotent_when_pool_exists sample.spdkBuilder 0).2 rfl rfl⟩

/-- C2, as the code has it: in SPDK mode, when `GetLVStore` fails with an error
that is not the device-not-found sentinel, `Build` skips base-device
provisioning and issues exactly one further call, `CreateLVStore` over
`cfg.Bdev.Name` and `cfg.Pooling.Name`; it returns that call's error with a
zero-value descriptor, or success with the translated descriptor. -/
theorem C2_query_failure_goes_on_to_create (pb : PoolBuilder σ) (s s1 s2 : σ)
    (lvs lvs2 : spdk.LVStoreInfo) (e : GoError) (cerr : Option GoError)
    (hmode : pb.mode = .PoolModeSpdkLVStore)
    (hq : pb.spdk.GetLVStore pb.cfg.Bdev.Name s = ((lvs, some e), s1))
    (hnf : e.isNotFoundDevice = false)
    (hc : pb.spdk.CreateLVStore
        { BdevName := pb.cfg.Bdev.Name, LVStoreName := pb.cfg.Pooling.Name } s1
        = ((lvs2, cerr), s2)) :
    pb.Build s =
      { val := some
          (match cerr with
           | some e2 => (engine.StaticInfo.zero, some e2)
           | none => ({ LVM := none, LVS := some (describeLVS lvs2) }, none))
        state := s2
        trace := [Call.GetLVStore pb.cfg.Bdev.Name,
                  Call.CreateLVStore
                    { BdevName := pb.cfg.Bdev.Name, LVStoreName := pb.cfg.Pooling.Name }] } := by
  cases cerr <;>
    simp [Build, hmode, buildSpdkLVS, Act.run_call_bind, hq, IsNotFoundDeviceError, hnf,
      createLvs, hc, Act.run_pure, describeLVS, toUint64_wrapInt64]

/-- Witness of the amended C2: the store query fails with a transport error and
the engine accepts the store creation. -/
theorem C2_witness :
    (sample.brokenQueryBuilder.mode = .PoolModeSpdkLVStore
      ∧ sample.brokenQueryBuilder.spdk.GetLVStore "nvme0" 0
          = ((spdk.LVStoreInfo.zero, some sample.errTransport), 0)
      ∧ sample.errTransport.isNotFoundDevice = false
      ∧ sample.brokenQueryBuilder.spdk.CreateLVStore
          { BdevName := "nvme0", LVStoreName := "vg0" } 0 = ((sample.lvs0, none), 1))
    ∧ sample.brokenQueryBuilder.Build 0 =
        { val := some ({ LVM := none, LVS := some (describeLVS sample.lvs0) }, none)
          state := 1
          trace := [Call.GetLVStore "nvme0",
                    Call.CreateLVStore { BdevName := "nvme0", LVStoreName := "vg0" }] } :=
  ⟨⟨rfl, rfl, rfl, rfl⟩,
   C2_query_failure_goes_on_to_create sample.brokenQueryBuilder 0 0 1 spdk.LVStoreInfo.zero
     sample.lvs0 sample.errTransport none rfl rfl rfl rfl⟩

/-- Counterexample to C2 as stated: the store query fails with an error that is
not the device-not-found sentinel, yet `Build` calls `CreateLVStore` and
returns success with a descriptor. -/
theorem C2_counterexample :
    (sample.brokenQueryBuilder.spdk.GetLVStore "nvme0" 0).1.2 = some sample.errTransport
    ∧ IsNotFoundDeviceError (some sample.errTransport) = false
    ∧ (sample.brokenQueryBuilder.Build 0).val
        = some ({ LVM := none, LVS := some (describeLVS sample.lvs0) }, none)
    ∧ (sample.brokenQueryBuilder.Build 0).trace
        = [Call.GetLVStore "nvme0",
           Call.CreateLVStore { BdevName := "nvme0", LVStoreName := "vg0" }]
    ∧ (Call.CreateLVStore { BdevName := "nvme0", LVStoreName := "vg0" }).isMutating = true := by
  refine ⟨rfl, rfl, ?_, rfl, rfl⟩
  decide

/-- C3, evaluated on the path where the code departs from it: Aio base device,
store and bdev both reported device-not-found, backing file already present.
`Build` creates the Aio bdev, then returns the stale not-found error of the
bdev listing with a zero-value descriptor; `CreateLVStore` is never called. -/
theorem C3_aio_existing_file_returns_stale_error (pb : PoolBuilder σ) (s s1 s2 s3 s4 : σ)
    (lvs : spdk.LVStoreInfo) (e e2 : GoError) (list : List spdk.Bdev)
    (fi : Option FileInfo) (ferr cerr : Option GoError)
    (hmode : pb.mode = .PoolModeSpdkLVStore)
    (htype : pb.cfg.Bdev.Type_ = .AioBdevType)
    (hq : pb.spdk.GetLVStore pb.cfg.Bdev.Name s = ((lvs, some e), s1))
    (hnf : e.isNotFoundDevice = true)
    (hl : pb.spdk.BdevGetBdevs pb.cfg.Bdev.Name s1 = ((list, some e2), s2))
    (hnf2 : e2.isNotFoundDevice = true)
    (hst : pb.host.Stat pb.cfg.Bdev.FilePath s2 = ((fi, ferr), s3))
    (hexists : IsNotExist ferr = false)
    (hc : pb.spdk.CreateAioBdev
        { BdevName := pb.cfg.Bdev.Name, DevPath := pb.cfg.Bdev.FilePath, BlockSize := 512 } s3
        = (cerr, s4)) :
    pb.Build s =
      { val := some (engine.StaticInfo.zero, some e2)
        state := s4
        trace := [Call.GetLVStore pb.cfg.Bdev.Name,
                  Call.BdevGetBdevs pb.cfg.Bdev.Name,
                  Call.Stat pb.cfg.Bdev.FilePath,
                  Call.CreateAioBdev
                    { BdevName := pb.cfg.Bdev.Name, DevPath := pb.cfg.Bdev.FilePath,
                      BlockSize := 512 }] } := by
  have haio : pb.buildLvsAioBdev pb.cfg s1 =
      { val := some (some e2)
        state := s4
        trace := [Call.BdevGetBdevs pb.cfg.Bdev.Name,
                  Call.Stat pb.cfg.Bdev.FilePath,
                  Call.CreateAioBdev
                    { BdevName := pb.cfg.Bdev.Name, DevPath := pb.cfg.Bdev.FilePath,
                      BlockSize := 512 }] } := by
    simp [buildLvsAioBdev, Act.run_call_bind, hl, IsNotFoundDeviceError, hnf2, hst, hexists,
      defaultBlockSize, hc, Act.run_pure]
  simp [Build, hmode, buildSpdkLVS, Act.run_call_bind, hq, IsNotFoundDeviceError, hnf, htype,
    Act.run_bind_of_eq _ _ _ _ _ _ haio, checkThenCreateLvs, Act.run_pure]

/-- Witness of the C3 evaluation on the sample host. -/
theorem C3_witness :
    (sample.aioBuilder.mode = .PoolModeSpdkLVStore
      ∧ sample.aioBuilder.cfg.Bdev.Type_ = .AioBdevType
      ∧ sample.aioBuilder.spdk.GetLVStore "nvme0" 0
          = ((spdk.LVStoreInfo.zero, some sample.errNoDevice), 0)
      ∧ sample.errNoDevice.isNotFoundDevice = true
      ∧ sample.aioBuilder.spdk.BdevGetBdevs "nvme0" 0 = (([], some sample.errNoDevice), 0)
      ∧ sample.aioBuilder.host.Stat "/data/bdev0.img" 0 = ((some { isDevice := false }, none), 0)
      ∧ IsNotExist none = false)
    ∧ sample.aioBuilder.Build 0 =
        { val := some (engine.StaticInfo.zero, some sample.errNoDevice)
          state := 1
          trace := [Call.GetLVStore "nvme0",
                    Call.BdevGetBdevs "nvme0",
                    Call.Stat "/data/bdev0.img",
                    Call.CreateAioBdev
                      { BdevName := "nvme0", DevPath := "/data/bdev0.img", BlockSize := 512 }] } :=
  ⟨⟨rfl, rfl, rfl, rfl, rfl, rfl, rfl⟩,
   C3_aio_existing_file_returns_stale_error sample.aioBuilder 0 0 0 0 1 spdk.LVStoreInfo.zero
     sample.errNoDevice sample.errNoDevice [] (some { isDevice := false }) none none
     rfl rfl rfl rfl rfl rfl rfl rfl rfl⟩

/-- The other Aio path, for comparison: when the backing file is missing and is
created and truncated without error, the named result is nil again, so `Build`
goes on from `CreateAioBdev` (whatever it answers) to `CreateLVStore` and
returns that call's outcome. -/
theorem aio_missing_file_reaches_create_lvstore (pb : PoolBuilder σ)
    (s s1 s2 s3 s4 s5 s6 s7 : σ) (lvs lvs2 : spdk.LVStoreInfo) (e e2 : GoError)
    (list : List spdk.Bdev) (fi : Option FileInfo) (ferr cerr lerr : Option GoError)
    (hmode : pb.mode = .PoolModeSpdkLVStore)
    (htype : pb.cfg.Bdev.Type_ = .AioBdevType)
    (hq : pb.spdk.GetLVStore pb.cfg.Bdev.Name s = ((lvs, some e), s1))
    (hnf : e.isNotFoundDevice = true)
    (hl : pb.spdk.BdevGetBdevs pb.cfg.Bdev.Name s1 = ((list, some e2), s2))
    (hnf2 : e2.isNotFoundDevice = true)
    (hst : pb.host.Stat pb.cfg.Bdev.FilePath s2 = ((fi, ferr), s3))
    (hmissing : IsNotExist ferr = true)
    (hcr : pb.host.Create pb.cfg.Bdev.FilePath s3 = (none, s4))
    (htr : pb.host.Truncate pb.cfg.Bdev.FilePath (toInt64 pb.cfg.Bdev.Size) s4 = (none, s5))
    (hc : pb.spdk.CreateAioBdev
        { BdevName := pb.cfg.Bdev.Name, DevPath := pb.cfg.Bdev.FilePath, BlockSize := 512 } s5
        = (cerr, s6))
    (hlv : pb.spdk.CreateLVStore
        { BdevName := pb.cfg.Bdev.Name, LVStoreName := pb.cfg.Pooling.Name } s6
        = ((lvs2, lerr), s7)) :
    pb.Build s =
      { val := some
          (match lerr with
           | some e3 => (engine.StaticInfo.zero, some e3)
           | none => ({ LVM := none, LVS := some (describeLVS lvs2) }, none))
        state := s7
        trace := [Call.GetLVStore pb.cfg.Bdev.Name,
                  Call.BdevGetBdevs pb.cfg.Bdev.Name,
                  Call.Stat pb.cfg.Bdev.FilePath,
                  Call.Create pb.cfg.Bdev.FilePath,
                  Call.Truncate pb.cfg.Bdev.FilePath (toInt64 pb.cfg.Bdev.Size),
                  Call.CreateAioBdev
                    { BdevName := pb.cfg.Bdev.Name, DevPath := pb.cfg.Bdev.FilePath,
                      BlockSize := 512 },
                  Call.CreateLVStore
                    { BdevName := pb.cfg.Bdev.Name, LVStoreName := pb.cfg.Pooling.Name }] } := by
  have haio : pb.buildLvsAioBdev pb.cfg s1 =
      { val := some none
        state := s6
        trace := [Call.BdevGetBdevs pb.cfg.Bdev.Name,
                  Call.Stat pb.cfg.Bdev.FilePath,
                  Call.Create pb.cfg.Bdev.FilePath,
                  Call.Truncate pb.cfg.Bdev.FilePath (toInt64 pb.cfg.Bdev.Size),
                  Call.CreateAioBdev
                    { BdevName := pb.cfg.Bdev.Name, DevPath := pb.cfg.Bdev.FilePath,
                      BlockSize := 512 }] } := by
    simp [buildLvsAioBdev, Act.run_call_bind, hl, IsNotFoundDeviceError, hnf2, hst, hmissing,
      hcr, htr, defaultBlockSize, hc, Act.run_pure]
  cases lerr <;>
    simp [Build, hmode, buildSpdkLVS, Act.run_call_bind, hq, IsNotFoundDeviceError, hnf, htype,
      Act.run_bind_of_eq _ _ _ _ _ _ haio, checkThenCreateLvs, run_createLvs, hlv]

theorem toInt64_of_lt (n : Nat) (h : n < 2 ^ 63) : toInt64 n = (n : Int) := by
  unfold toInt64 wrapInt64
  have h1 : n % 2 ^ 64 = n := Nat.mod_eq_of_lt (by omega)
  rw [h1]
  simp only [Int.ofNat_eq_coe]
  omega

/-- C5. Memory-device size floor: SPDK mode, base device of kind Mem, store and
bdev both reported device-not-found, `Size` any `uint64`.  If `Size < 512`, `Build` fails and its
only calls are the two queries (neither `CreateMemBdev` nor `CreateLVStore`);
if `Size >= 512`, the third call is `CreateMemBdev` with `Name = cfg.Bdev.Name`,
`BlockSize = 512` and `NumBlocks = Size / 512`, followed by `CreateLVStore`
exactly when it succeeds. -/
theorem C5_mem_bdev_size_floor (pb : PoolBuilder σ) (s s1 s2 s3 : σ)
    (lvs : spdk.LVStoreInfo) (e e2 : GoError) (list : List spdk.Bdev) (merr : Option GoError)
    (hmode : pb.mode = .PoolModeSpdkLVStore)
    (htype : pb.cfg.Bdev.Type_ = .MemBdevType)
    (hq : pb.spdk.GetLVStore pb.cfg.Bdev.Name s = ((lvs, some e), s1))
    (hnf : e.isNotFoundDevice = true)
    (hl : pb.spdk.BdevGetBdevs pb.cfg.Bdev.Name s1 = ((list, some e2), s2))
    (hnf2 : e2.isNotFoundDevice = true)
    (hsize : pb.cfg.Bdev.Size < 2 ^ 64)
    (hm : pb.spdk.CreateMemBdev
        { Name := pb.cfg.Bdev.Name, BlockSize := 512,
          NumBlocks := ((pb.cfg.Bdev.Size / 512 : Nat) : Int) } s2 = (merr, s3)) :
    (pb.cfg.Bdev.Size < 512 →
      (∃ err, (pb.Build s).val = some (engine.StaticInfo.zero, some err))
      ∧ (pb.Build s).trace
          = [Call.GetLVStore pb.cfg.Bdev.Name, Call.BdevGetBdevs pb.cfg.Bdev.Name])
    ∧ (512 ≤ pb.cfg.Bdev.Size →
      (pb.Build s).trace
        = [Call.GetLVStore pb.cfg.Bdev.Name, Call.BdevGetBdevs pb.cfg.Bdev.Name,
           Call.CreateMemBdev
             { Name := pb.cfg.Bdev.Name, BlockSize := 512,
               NumBlocks := ((pb.cfg.Bdev.Size / 512 : Nat) : Int) }]
          ++ (match merr with
              | some _ => []
              | none =>
                [Call.CreateLVStore
                  { BdevName := pb.cfg.Bdev.Name, LVStoreName := pb.cfg.Pooling.Name }])) := by
  have hblocks : toInt64 (pb.cfg.Bdev.Size / 512) = ((pb.cfg.Bdev.Size / 512 : Nat) : Int) :=
    toInt64_of_lt _ (by omega)
  constructor
  · intro hlt
    have hz : pb.cfg.Bdev.Size / 512 = 0 := by omega
    have hmem : pb.buildLvsMemBdev pb.cfg s1 =
        { val := some (some (Errorf ("invalid bdev size: " ++ toString pb.cfg.Bdev.Size
            ++ ", should be bigger than block size 512 byte")))
          state := s2
          trace := [Call.BdevGetBdevs pb.cfg.Bdev.Name] } := by
      simp [buildLvsMemBdev, Act.run_call_bind, hl, IsNotFoundDeviceError, hnf2,
        defaultBlockSize, hz, Act.run_pure]
    constructor
    · refine ⟨Errorf ("invalid bdev size: " ++ toString pb.cfg.Bdev.Size
        ++ ", should be bigger than block size 512 byte"), ?_⟩
      simp [Build, hmode, buildSpdkLVS, Act.run_call_bind, hq, IsNotFoundDeviceError, hnf, htype,
        Act.run_bind_of_eq _ _ _ _ _ _ hmem, checkThenCreateLvs, Act.run_pure]
    · simp [Build, hmode, buildSpdkLVS, Act.run_call_bind, hq, IsNotFoundDeviceError, hnf, htype,
        Act.run_bind_of_eq _ _ _ _ _ _ hmem, checkThenCreateLvs, Act.run_pure]
  · intro hge
    have hz : ¬ pb.cfg.Bdev.Size / 512 = 0 := by omega
    have hmem : pb.buildLvsMemBdev pb.cfg s1 =
        { val := some merr
          state := s3
          trace := [Call.BdevGetBdevs pb.cfg.Bdev.Name,
                    Call.CreateMemBdev
                      { Name := pb.cfg.Bdev.Name, BlockSize := 512,
                        NumBlocks := ((pb.cfg.Bdev.Size / 512 : Nat) : Int) }] } := by
      simp only [buildLvsMemBdev, Act.run_call_bind, hl, IsNotFoundDeviceError, hnf2,
        defaultBlockSize, hz, Act.run_pure, hblocks, Option.isSome_some, Bool.and_self,
        if_true, if_false, Nat.cast_ofNat, hm]
    cases merr <;>
      simp [Build, hmode, buildSpdkLVS, Act.run_call_bind, hq, IsNotFoundDeviceError, hnf, htype,
        Act.run_bind_of_eq _ _ _ _ _ _ hmem, checkThenCreateLvs, Act.run_pure, run_createLvs]

/-- Witness of C5 on the sample hosts: 256 bytes fail after the two queries,
1024 bytes give a memory bdev of 2 blocks of 512 bytes. -/
theorem C5_witness :
    ((sample.smallMemBuilder.cfg.Bdev.Size < 512
        ∧ sample.smallMemBuilder.spdk.GetLVStore "nvme0" 0
            = ((spdk.LVStoreInfo.zero, some sample.errNoDevice), 0)
        ∧ sample.smallMemBuilder.spdk.BdevGetBdevs "nvme0" 0
            = (([], some sample.errNoDevice), 0))
      ∧ (∃ err, (sample.smallMemBuilder.Build 0).val = some (engine.StaticInfo.zero, some err))
      ∧ (sample.smallMemBuilder.Build 0).trace
          = [Call.GetLVStore "nvme0", Call.BdevGetBdevs "nvme0"])
    ∧ ((512 ≤ sample.memBuilder.cfg.Bdev.Size
        ∧ sample.memBuilder.spdk.GetLVStore "nvme0" 0
            = ((spdk.LVStoreInfo.zero, some sample.errNoDevice), 0)
        ∧ sample.memBuilder.spdk.BdevGetBdevs "nvme0" 0 = (([], some sample.errNoDevice), 0))
      ∧ (sample.memBuilder.Build 0).trace
          = [Call.GetLVStore "nvme0", Call.BdevGetBdevs "nvme0",
             Call.CreateMemBdev { Name := "nvme0", BlockSize := 512, NumBlocks := 2 },
             Call.CreateLVStore { BdevName := "nvme0", LVStoreName := "vg0" }]) :=
  ⟨⟨⟨by decide, rfl, rfl⟩,
    (C5_mem_bdev_size_floor sample.smallMemBuilder 0 0 0 1 spdk.LVStoreInfo.zero
      sample.errNoDevice sample.errNoDevice [] none rfl rfl rfl rfl rfl rfl (by decide) rfl).1
      (by decide)⟩,
   ⟨⟨by decide, rfl, rfl⟩,
    (C5_mem_bdev_size_floor sample.memBuilder 0 0 0 1 spdk.LVStoreInfo.zero
      sample.errNoDevice sample.errNoDevice [] none rfl rfl rfl rfl rfl rfl (by decide) rfl).2
      (by decide)⟩⟩

theorem prepareNVMePCI_no_ids (pb : PoolBuilder σ)
    (hk : ∀ n p t, (pb.kmod.HasKmod n t).1 = none
      ∨ (pb.kmod.ProbeKmod p (pb.kmod.HasKmod n t).2).1 = none)
    (hl : ∀ t, (pb.pci.ListNVMeID t).1 = ([], none)) (s : σ) :
    (pb.prepareNVMePCI s).val = some ([], none)
    ∧ ∀ c ∈ (pb.prepareNVMePCI s).trace,
        (∃ n, c = Call.HasKmod n) ∨ (∃ n, c = Call.ProbeKmod n) ∨ c = Call.ListNVMeID := by
  unfold prepareNVMePCI
  simp only [Act.run_call_bind]
  rcases h1 : (pb.kmod.HasKmod "vfio_pci" s).1 with _ | e1
  · simp only [Act.run_pure_bind, Act.run_call_bind]
    rcases h2 : (pb.kmod.HasKmod "vfio_iommu_type1" (pb.kmod.HasKmod "vfio_pci" s).2).1
      with _ | e2
    · simp [Act.run_pure_bind, Act.run_pure, Act.run_call_bind, hl]
    · have hp := hk "vfio_iommu_type1" "vfio_iommu_type1" (pb.kmod.HasKmod "vfio_pci" s).2
      rw [h2] at hp
      simp at hp
      simp [Act.run_pure_bind, Act.run_pure, Act.run_call_bind, hl, hp]
  · have hp1 := hk "vfio_pci" "vfio-pci" s
    rw [h1] at hp1
    simp at hp1
    simp only [Act.run_pure_bind, Act.run_call_bind, hp1]
    rcases h2 : (pb.kmod.HasKmod "vfio_iommu_type1"
        (pb.kmod.ProbeKmod "vfio-pci" (pb.kmod.HasKmod "vfio_pci" s).2).2).1 with _ | e2
    · simp [Act.run_pure_bind, Act.run_pure, Act.run_call_bind, hl]
    · have hp := hk "vfio_iommu_type1" "vfio_iommu_type1"
        (pb.kmod.ProbeKmod "vfio-pci" (pb.kmod.HasKmod "vfio_pci" s).2).2
      rw [h2] at hp
      simp at hp
      simp [Act.run_pure_bind, Act.run_pure, Act.run_call_bind, hl, hp]

/-- C6, as the code has it: SPDK mode, base device of kind Raid, store reported
device-not-found, each kernel module present or probed successfully, and
`ListNVMeID` succeeding with zero identities.  `Build` issues no PCI call after
the enumeration, hands the empty identity list to `CreateLVStoreFromNVMeIDs`,
and returns that call's outcome: its error with a zero-value descriptor, or
success with the translated descriptor. -/
theorem C6_raid_zero_ids_defers_to_engine (pb : PoolBuilder σ) (s s1 : σ)
    (lvs lvs2 : spdk.LVStoreInfo) (e : GoError) (cerr : Option GoError)
    (hmode : pb.mode = .PoolModeSpdkLVStore)
    (htype : pb.cfg.Bdev.Type_ = .RaidBdevType)
    (hq : pb.spdk.GetLVStore pb.cfg.Bdev.Name s = ((lvs, some e), s1))
    (hnf : e.isNotFoundDevice = true)
    (hk : ∀ n p t, (pb.kmod.HasKmod n t).1 = none
      ∨ (pb.kmod.ProbeKmod p (pb.kmod.HasKmod n t).2).1 = none)
    (hl : ∀ t, (pb.pci.ListNVMeID t).1 = ([], none))
    (hc : ∀ t, (pb.spdk.CreateLVStoreFromNVMeIDs { NVMeIDs := [] } t).1 = (lvs2, cerr)) :
    (pb.Build s).val = some
        (match cerr with
         | some e2 => (engine.StaticInfo.zero, some e2)
         | none => ({ LVM := none, LVS := some (describeLVS lvs2) }, none))
    ∧ ∃ pre, (pb.Build s).trace = pre ++ [Call.CreateLVStoreFromNVMeIDs { NVMeIDs := [] }]
        ∧ ∀ c ∈ pre, c = Call.GetLVStore pb.cfg.Bdev.Name ∨ (∃ n, c = Call.HasKmod n)
            ∨ (∃ n, c = Call.ProbeKmod n) ∨ c = Call.ListNVMeID := by
  obtain ⟨hv, ht⟩ := prepareNVMePCI_no_ids pb hk hl s1
  have hraid : (pb.buildLvsRaidBdev pb.cfg s1).val = some
        (match cerr with
         | some e2 => (engine.StaticInfo.zero, some e2)
         | none => ({ LVM := none, LVS := some (describeLVS lvs2) }, none))
      ∧ (pb.buildLvsRaidBdev pb.cfg s1).trace
          = (pb.prepareNVMePCI s1).trace ++ [Call.CreateLVStoreFromNVMeIDs { NVMeIDs := [] }] := by
    have hc1 := hc (pb.prepareNVMePCI s1).state
    cases cerr <;>
      simp [buildLvsRaidBdev, htype, Act.bind_assoc, Act.run_bind_of_val _ _ _ _ hv,
        Act.run_call_bind, hc1, Act.run_pure_bind, Act.run_pure, describeLVS, toUint64_wrapInt64]
  have hb : pb.Build s =
      { val := (pb.buildLvsRaidBdev pb.cfg s1).val
        state := (pb.buildLvsRaidBdev pb.cfg s1).state
        trace := Call.GetLVStore pb.cfg.Bdev.Name :: (pb.buildLvsRaidBdev pb.cfg s1).trace } := by
    simp [Build, hmode, buildSpdkLVS, Act.run_call_bind, hq, IsNotFoundDeviceError, hnf, htype]
  rw [hb]
  refine ⟨hraid.1, Call.GetLVStore pb.cfg.Bdev.Name :: (pb.prepareNVMePCI s1).trace, ?_, ?_⟩
  · simp [hraid.2]
  · intro c hcm
    rcases List.mem_cons.mp hcm with h | h
    · exact Or.inl h
    · exact Or.inr (ht c h)

/-- Witness of the amended C6 on the sample host without NVMe controllers. -/
theorem C6_witness :
    (sample.raidBuilder.mode = .PoolModeSpdkLVStore
      ∧ sample.raidBuilder.cfg.Bdev.Type_ = .RaidBdevType
      ∧ sample.raidBuilder.spdk.GetLVStore "nvme0" 0
          = ((spdk.LVStoreInfo.zero, some sample.errNoDevice), 0)
      ∧ sample.errNoDevice.isNotFoundDevice = true)
    ∧ ((sample.raidBuilder.Build 0).val
          = some ({ LVM := none, LVS := some (describeLVS sample.lvs0) }, none)
      ∧ ∃ pre, (sample.raidBuilder.Build 0).trace
            = pre ++ [Call.CreateLVStoreFromNVMeIDs { NVMeIDs := [] }]
          ∧ ∀ c ∈ pre, c = Call.GetLVStore "nvme0" ∨ (∃ n, c = Call.HasKmod n)
              ∨ (∃ n, c = Call.ProbeKmod n) ∨ c = Call.ListNVMeID) :=
  ⟨⟨rfl, rfl, rfl, rfl⟩,
   C6_raid_zero_ids_defers_to_engine sample.raidBuilder 0 0 spdk.LVStoreInfo.zero sample.lvs0
     sample.errNoDevice none rfl rfl rfl rfl (fun _ _ _ => Or.inl rfl) (fun _ => rfl)
     (fun _ => rfl)⟩

/-- Counterexample to C6 as stated: the enumeration succeeds with zero
identities, the engine accepts the store creation, and `Build` returns
success (a nil error) after calling `CreateLVStoreFromNVMeIDs` with no identity. -/
theorem C6_counterexample :
    (sample.raidBuilder.spdk.GetLVStore "nvme0" 0).1.2 = some sample.errNoDevice
    ∧ IsNotFoundDeviceError (some sample.errNoDevice) = true
    ∧ (sample.raidBuilder.pci.ListNVMeID 0).1 = ([], none)
    ∧ (sample.raidBuilder.Build 0).val
        = some ({ LVM := none, LVS := some (describeLVS sample.lvs0) }, none)
    ∧ (sample.raidBuilder.Build 0).trace
        = [Call.GetLVStore "nvme0", Call.HasKmod "vfio_pci", Call.HasKmod "vfio_iommu_type1",
           Call.ListNVMeID, Call.CreateLVStoreFromNVMeIDs { NVMeIDs := [] }] := by
  refine ⟨rfl, rfl, rfl, ?_, rfl⟩
  decide

theorem checkThenCreateLvs_handed (pb : PoolBuilder σ) (err : Option GoError) (t : σ)
    (info : engine.StaticInfo)
    (h : (pb.checkThenCreateLvs pb.cfg err t).val = some (info, none)) :
    ∃ lvs, pb.HandedBack lvs ∧ info = { LVM := none, LVS := some (describeLVS lvs) } := by
  cases err with
  | some e => simp [checkThenCreateLvs, Act.run_pure] at h
  | none =>
    simp only [checkThenCreateLvs, run_createLvs] at h
    cases hc : (pb.spdk.CreateLVStore
        { BdevName := pb.cfg.Bdev.Name, LVStoreName := pb.cfg.Pooling.Name } t).1.2 with
    | some e => rw [hc] at h; simp at h
    | none =>
      rw [hc] at h
      simp only [Option.some.injEq, Prod.mk.injEq, and_true] at h
      exact ⟨_, Or.inr (Or.inl ⟨t, Prod.ext rfl hc⟩), h.symm⟩

theorem buildLvsRaidBdev_handed (pb : PoolBuilder σ) (t : σ) (info : engine.StaticInfo)
    (htype : pb.cfg.Bdev.Type_ = .RaidBdevType)
    (h : (pb.buildLvsRaidBdev pb.cfg t).val = some (info, none)) :
    ∃ lvs, pb.HandedBack lvs ∧ info = { LVM := none, LVS := some (describeLVS lvs) } := by
  simp only [buildLvsRaidBdev, htype, Act.bind_assoc] at h
  obtain ⟨ids, -, h2⟩ := Act.val_bind _ _ _ _ h
  cases hi : ids.2 with
  | some e => simp [hi, Act.run_pure_bind, Act.run_pure] at h2
  | none =>
    simp only [hi, Act.bind_assoc, Act.run_call_bind] at h2
    cases hc : (pb.spdk.CreateLVStoreFromNVMeIDs { NVMeIDs := ids.1 }
        (pb.prepareNVMePCI t).state).1.2 with
    | some e => simp [hc, Act.run_pure_bind, Act.run_pure] at h2
    | none =>
      simp only [hc, Act.run_pure_bind, Act.run_pure, Option.some.injEq, Prod.mk.injEq,
        and_true, toUint64_wrapInt64] at h2
      exact ⟨_, Or.inr (Or.inr ⟨ids.1, _, Prod.ext rfl hc⟩), h2.symm⟩

/-- C7, as the code has it: every successful `Build` in SPDK mode returns the
translation of a store answer the engine handed back (from `GetLVStore`,
`CreateLVStore` or `CreateLVStoreFromNVMeIDs`), the same translation at all
three sites: `Name`, `UUID`, `BaseBdev`, `ClusterSize`, `TotalDataClusters` and
`BlockSize` are copied and `Bytes` is the product of cluster size and cluster
count reduced modulo 2^64, hence the exact product whenever that lies in
`[0, 2^64)`. -/
theorem C7_descriptor_is_translated_answer (pb : PoolBuilder σ) (s : σ)
    (info : engine.StaticInfo)
    (hmode : pb.mode = .PoolModeSpdkLVStore)
    (hok : (pb.Build s).val = some (info, none)) :
    ∃ lvs d, pb.HandedBack lvs
      ∧ info = { LVM := none, LVS := some d }
      ∧ d = describeLVS lvs
      ∧ d.Name = lvs.Name ∧ d.UUID = lvs.UUID ∧ d.BaseBdev = lvs.BaseBdev
      ∧ d.ClusterSize = lvs.ClusterSize ∧ d.TotalDataCluster = lvs.TotalDataClusters
      ∧ d.BlockSize = lvs.BlockSize
      ∧ (d.Bytes : Int) = (lvs.ClusterSize * lvs.TotalDataClusters) % 2 ^ 64
      ∧ (0 ≤ lvs.ClusterSize * lvs.TotalDataClusters →
          lvs.ClusterSize * lvs.TotalDataClusters < 2 ^ 64 →
          (d.Bytes : Int) = lvs.ClusterSize * lvs.TotalDataClusters) := by
  have key : ∃ lvs, pb.HandedBack lvs
      ∧ info = { LVM := none, LVS := some (describeLVS lvs) } := by
    simp only [Build, hmode, buildSpdkLVS, Act.run_call_bind] at hok
    cases hq : (pb.spdk.GetLVStore pb.cfg.Bdev.Name s).1.2 with
    | none =>
      simp only [hq, Act.run_pure, Option.some.injEq, Prod.mk.injEq, and_true,
        toUint64_wrapInt64] at hok
      exact ⟨_, Or.inl ⟨s, Prod.ext rfl hq⟩, hok.symm⟩
    | some e =>
      simp only [hq] at hok
      by_cases hnf : IsNotFoundDeviceError (some e) = true
      · simp only [hnf, if_true] at hok
        cases htype : pb.cfg.Bdev.Type_ with
        | AioBdevType =>
          simp only [htype] at hok
          obtain ⟨err, -, h2⟩ := Act.val_bind _ _ _ _ hok
          exact checkThenCreateLvs_handed pb err _ info h2
        | UringBdevType =>
          simp only [htype] at hok
          obtain ⟨err, -, h2⟩ := Act.val_bind _ _ _ _ hok
          exact checkThenCreateLvs_handed pb err _ info h2
        | MemBdevType =>
          simp only [htype] at hok
          obtain ⟨err, -, h2⟩ := Act.val_bind _ _ _ _ hok
          exact checkThenCreateLvs_handed pb err _ info h2
        | RaidBdevType =>
          simp only [htype] at hok
          exact buildLvsRaidBdev_handed pb _ info htype hok
        | other t =>
          simp only [htype] at hok
          exact checkThenCreateLvs_handed pb _ _ info hok
      · simp only [hnf, Bool.false_eq_true, if_false] at hok
        exact checkThenCreateLvs_handed pb none _ info hok
  obtain ⟨lvs, hh, hinfo⟩ := key
  have hbytes : ((describeLVS lvs).Bytes : Int)
      = (lvs.ClusterSize * lvs.TotalDataClusters) % 2 ^ 64 := by
    simp only [describeLVS]
    exact Int.toNat_of_nonneg (Int.emod_nonneg _ (by norm_num))
  refine ⟨lvs, describeLVS lvs, hh, hinfo, rfl, rfl, rfl, rfl, rfl, rfl, rfl, hbytes, ?_⟩
  intro h0 h1
  rw [hbytes]
  exact Int.emod_eq_of_lt h0 h1

/-- Witness of the amended C7 on the sample host with an existing store. -/
theorem C7_witness :
    (sample.spdkBuilder.mode = .PoolModeSpdkLVStore
      ∧ (sample.spdkBuilder.Build 0).val
          = some ({ LVM := none, LVS := some (describeLVS sample.lvs0) }, none))
    ∧ ∃ lvs d, sample.spdkBuilder.HandedBack lvs
      ∧ ({ LVM := none, LVS := some (describeLVS sample.lvs0) } : engine.StaticInfo)
          = { LVM := none, LVS := some d }
      ∧ d = describeLVS lvs
      ∧ d.Name = lvs.Name ∧ d.UUID = lvs.UUID ∧ d.BaseBdev = lvs.BaseBdev
      ∧ d.ClusterSize = lvs.ClusterSize ∧ d.TotalDataCluster = lvs.TotalDataClusters
      ∧ d.BlockSize = lvs.BlockSize
      ∧ (d.Bytes : Int) = (lvs.ClusterSize * lvs.TotalDataClusters) % 2 ^ 64
      ∧ (0 ≤ lvs.ClusterSize * lvs.TotalDataClusters →
          lvs.ClusterSize * lvs.TotalDataClusters < 2 ^ 64 →
          (d.Bytes : Int) = lvs.ClusterSize * lvs.TotalDataClusters) :=
  ⟨⟨rfl, by decide⟩,
   C7_descriptor_is_translated_answer sample.spdkBuilder 0 _ rfl (by decide)⟩

/-- Counterexample to C7 as stated: the engine reports 2^32 clusters of 2^32
bytes; `Build` succeeds and the descriptor's `Bytes` is 0, not the product
2^64 of the two fields it copied. -/
theorem C7_counterexample :
    ∃ d : v1.SpdkLVStore,
      (sample.hugeStoreBuilder.Build 0).val = some ({ LVM := none, LVS := some d }, none)
      ∧ d.ClusterSize = 4294967296 ∧ d.TotalDataCluster = 4294967296
      ∧ d.Bytes = 0
      ∧ d.ClusterSize * d.TotalDataCluster = 18446744073709551616
      ∧ (d.Bytes : Int) ≠ d.ClusterSize * d.TotalDataCluster := by
  refine ⟨{ Name := "lvs0", UUID := "lvs-uuid", BaseBdev := "nvme0", ClusterSize := 4294967296,
            TotalDataCluster := 4294967296, BlockSize := 512, Bytes := 0 }, ?_, rfl, rfl, rfl,
          ?_, ?_⟩
  · decide
  · decide
  · decide

theorem resolvePV_emits (pb : PoolBuilder σ) (P : Call → Prop)
    (h1 : ∀ p, P (Call.FileExists p)) (h2 : ∀ p n, P (Call.CreateFallocateFile p n))
    (h3 : ∀ d f, P (Call.CreateLoopDevice d f)) (idx : Nat) (pv : config.PV) :
    Act.Emits P (pb.resolvePV idx pv) := by
  unfold resolvePV
  repeat' first
    | exact Act.Emits.pure _
    | exact Act.Emits.call _ _ (h1 _)
    | exact Act.Emits.call _ _ (h2 _ _)
    | exact Act.Emits.call _ _ (h3 _ _)
    | apply Act.Emits.bind
    | intro _
    | split

theorem resolvePVs_emits (pb : PoolBuilder σ) (P : Call → Prop)
    (h1 : ∀ p, P (Call.FileExists p)) (h2 : ∀ p n, P (Call.CreateFallocateFile p n))
    (h3 : ∀ d f, P (Call.CreateLoopDevice d f)) :
    ∀ (l : List config.PV) (idx : Nat) (acc : List String),
      Act.Emits P (pb.resolvePVs l idx acc) := by
  intro l
  induction l with
  | nil =>
    intro idx acc
    exact Act.Emits.pure _
  | cons pv rest ih =>
    intro idx acc
    unfold resolvePVs
    apply Act.Emits.bind
    · exact resolvePV_emits pb P h1 h2 h3 idx pv
    · intro r
      split
      · exact Act.Emits.pure _
      · exact ih _ _

theorem buildLVM_emits (pb : PoolBuilder σ) (P : Call → Prop)
    (hP : ∀ c, c.isRaidPath = false → P c) (cfg : config.StorageStack) :
    Act.Emits P (pb.buildLVM cfg) := by
  unfold buildLVM
  repeat' first
    | exact Act.Emits.pure _
    | exact Act.Emits.call _ _ (hP _ rfl)
    | exact resolvePVs_emits pb P (fun _ => hP _ rfl) (fun _ _ => hP _ rfl)
        (fun _ _ => hP _ rfl) _ _ _
    | apply Act.Emits.bind
    | intro _
    | split

theorem buildLvsAioBdev_emits (pb : PoolBuilder σ) (P : Call → Prop)
    (hP : ∀ c, c.isRaidPath = false → P c) (cfg : config.StorageStack) :
    Act.Emits P (pb.buildLvsAioBdev cfg) := by
  unfold buildLvsAioBdev
  repeat' first
    | exact Act.Emits.pure _
    | exact Act.Emits.call _ _ (hP _ rfl)
    | apply Act.Emits.bind
    | intro _
    | split

theorem buildLvsUringBdev_emits (pb : PoolBuilder σ) (P : Call → Prop)
    (hP : ∀ c, c.isRaidPath = false → P c) (cfg : config.StorageStack) :
    Act.Emits P (pb.buildLvsUringBdev cfg) := by
  unfold buildLvsUringBdev
  repeat' first
    | exact Act.Emits.pure _
    | exact Act.Emits.nilDeref
    | exact Act.Emits.call _ _ (hP _ rfl)
    | apply Act.Emits.bind
    | intro _
    | split

theorem buildLvsMemBdev_emits (pb : PoolBuilder σ) (P : Call → Prop)
    (hP : ∀ c, c.isRaidPath = false → P c) (cfg : config.StorageStack) :
    Act.Emits P (pb.buildLvsMemBdev cfg) := by
  unfold buildLvsMemBdev
  repeat' first
    | exact Act.Emits.pure _
    | exact Act.Emits.call _ _ (hP _ rfl)
    | apply Act.Emits.bind
    | intro _
    | split
    | dsimp only

theorem checkThenCreateLvs_emits (pb : PoolBuilder σ) (P : Call → Prop)
    (hP : ∀ c, c.isRaidPath = false → P c) (cfg : config.StorageStack)
    (err : Option GoError) :
    Act.Emits P (pb.checkThenCreateLvs cfg err) := by
  unfold checkThenCreateLvs createLvs
  repeat' first
    | exact Act.Emits.pure _
    | exact Act.Emits.call _ _ (hP _ rfl)
    | apply Act.Emits.bind
    | intro _
    | split

theorem unbindEach_emits (pb : PoolBuilder σ) :
    ∀ l : List String, Act.Emits (fun c => c.isUringRaid = false) (pb.unbindEach l) := by
  intro l
  induction l with
  | nil => exact Act.Emits.pure _
  | cons id rest ih =>
    unfold unbindEach
    repeat' first
      | exact Act.Emits.pure _
      | exact ih
      | exact Act.Emits.call _ _ rfl
      | apply Act.Emits.bind
      | intro _
      | split

theorem prepareNVMePCI_emits (pb : PoolBuilder σ) :
    Act.Emits (fun c => c.isUringRaid = false) pb.prepareNVMePCI := by
  unfold prepareNVMePCI
  repeat' first
    | exact Act.Emits.pure _
    | exact unbindEach_emits pb _
    | exact Act.Emits.call _ _ rfl
    | apply Act.Emits.bind
    | intro _
    | split

theorem buildLvsRaidBdev_emits (pb : PoolBuilder σ) (cfg : config.StorageStack)
    (htype : cfg.Bdev.Type_ = .RaidBdevType) :
    Act.Emits (fun c => c.isUringRaid = false) (pb.buildLvsRaidBdev cfg) := by
  unfold buildLvsRaidBdev
  simp only [htype]
  repeat' first
    | exact Act.Emits.pure _
    | exact prepareNVMePCI_emits pb
    | exact Act.Emits.call _ _ rfl
    | apply Act.Emits.bind
    | intro _
    | split

theorem isUringRaid_of_not_raidPath (c : Call) (h : c.isRaidPath = false) :
    c.isUringRaid = false := by
  cases c <;> simp [Call.isRaidPath] at h <;> rfl

theorem buildSpdkLVS_emits (pb : PoolBuilder σ) (cfg : config.StorageStack) :
    Act.Emits (fun c => c.isUringRaid = false) (pb.buildSpdkLVS cfg) := by
  have hP : ∀ c : Call, c.isRaidPath = false → c.isUringRaid = false :=
    isUringRaid_of_not_raidPath
  have hck := checkThenCreateLvs_emits pb (fun c => c.isUringRaid = false) hP cfg
  unfold buildSpdkLVS
  apply Act.Emits.bind
  · exact Act.Emits.call _ _ rfl
  · intro g
    split
    · exact Act.Emits.pure _
    · split
      · split
        · exact Act.Emits.bind _ _ (buildLvsAioBdev_emits pb _ hP cfg) hck
        · exact Act.Emits.bind _ _ (buildLvsUringBdev_emits pb _ hP cfg) hck
        · exact Act.Emits.bind _ _ (buildLvsMemBdev_emits pb _ hP cfg) hck
        · exact buildLvsRaidBdev_emits pb cfg (by assumption)
        · exact hck _
      · exact hck none

theorem buildSpdkLVS_emits_not_raid (pb : PoolBuilder σ) (cfg : config.StorageStack)
    (htype : cfg.Bdev.Type_ ≠ .RaidBdevType) :
    Act.Emits (fun c => c.isRaidPath = false) (pb.buildSpdkLVS cfg) := by
  have hP : ∀ c : Call, c.isRaidPath = false → c.isRaidPath = false := fun _ h => h
  have hck := checkThenCreateLvs_emits pb (fun c => c.isRaidPath = false) hP cfg
  unfold buildSpdkLVS
  apply Act.Emits.bind
  · exact Act.Emits.call _ _ rfl
  · intro g
    split
    · exact Act.Emits.pure _
    · split
      · split
        · exact Act.Emits.bind _ _ (buildLvsAioBdev_emits pb _ hP cfg) hck
        · exact Act.Emits.bind _ _ (buildLvsUringBdev_emits pb _ hP cfg) hck
        · exact Act.Emits.bind _ _ (buildLvsMemBdev_emits pb _ hP cfg) hck
        · exact absurd (by assumption) htype
        · exact hck _
      · exact hck none

theorem resolvePV_ok (pb : PoolBuilder σ) (idx : Nat) (pv : config.PV) (s : σ) (p : String)
    (h : (pb.resolvePV idx pv s).val = some (.ok p)) :
    p = resolvedPath pv idx (pb.host.FileExists pv.DevicePath s).1.1 := by
  have hp : ((pb.host.FileExists
          (if pv.DevicePath = "" then loopDevPath idx else pv.DevicePath) s).1.1 = true
        ∧ p = (if pv.DevicePath = "" then loopDevPath idx else pv.DevicePath))
      ∨ ((pb.host.FileExists
          (if pv.DevicePath = "" then loopDevPath idx else pv.DevicePath) s).1.1 = false
        ∧ p = loopDevPath idx) := by
    unfold resolvePV at h
    simp only [Act.run_call_bind] at h
    generalize (if pv.DevicePath = "" then loopDevPath idx else pv.DevicePath) = dp at h ⊢
    rcases hfe : pb.host.FileExists dp s with ⟨⟨has, ferr⟩, t0⟩
    simp only [hfe] at h ⊢
    cases has with
    | true =>
      simp only [if_true, Act.run_pure, Option.some.injEq, Except.ok.injEq] at h
      exact Or.inl ⟨rfl, h.symm⟩
    | false =>
      refine Or.inr ⟨rfl, ?_⟩
      simp only [Bool.false_eq_true, if_false] at h
      by_cases hv : pv.FilePath = "" ∨ pv.Size = 0
      · simp [hv, Act.run_pure] at h
      · simp only [hv, if_false, Act.run_call_bind] at h
        rcases hcf : pb.host.CreateFallocateFile pv.FilePath (toInt64 pv.Size) t0
          with ⟨_ | e1, t1⟩
        · simp only [hcf, Act.run_call_bind] at h
          rcases hcl : pb.host.CreateLoopDevice (loopDevPath idx) pv.FilePath t1
            with ⟨_ | e2, t2⟩
          · simp only [hcl, Act.run_pure, Option.some.injEq, Except.ok.injEq] at h
            exact h.symm
          · simp [hcl, Act.run_pure] at h
        · simp [hcf, Act.run_pure] at h
  by_cases hd : pv.DevicePath = ""
  · simp only [hd, if_true] at hp
    have hr : ∀ b, resolvedPath pv idx b = loopDevPath idx := by
      intro b
      simp [resolvedPath, hd, loopDevPath]
    rw [hr]
    rcases hp with hp | hp <;> exact hp.2
  · simp only [hd, if_false] at hp
    rcases hp with hp | hp
    · simp [resolvedPath, hd, hp.1, hp.2]
    · simp [resolvedPath, hp.1, hp.2, loopDevPath]

theorem resolvePVs_ok (pb : PoolBuilder σ) :
    ∀ (l : List config.PV) (idx : Nat) (acc : List String) (s : σ) (paths : List String),
      (pb.resolvePVs l idx acc s).val = some (.ok paths) →
      ∃ res, paths = acc ++ res ∧ res.length = l.length
        ∧ ∀ j (hj : j < l.length),
            res[j]? = some (resolvedPath l[j] (idx + j)
              (pb.host.FileExists l[j].DevicePath
                (pb.resolvePVs (l.take j) idx acc s).state).1.1) := by
  intro l
  induction l with
  | nil =>
    intro idx acc s paths h
    simp only [resolvePVs, Act.run_pure, Option.some.injEq, Except.ok.injEq] at h
    exact ⟨[], by simp [h], rfl, by intro j hj; simp at hj⟩
  | cons pv rest ih =>
    intro idx acc s paths h
    unfold resolvePVs at h
    obtain ⟨r, hr, h2⟩ := Act.val_bind _ _ _ _ h
    cases r with
    | error e => simp [Act.run_pure] at h2
    | ok p =>
      simp only [] at h2
      obtain ⟨res, hpaths, hlen, hall⟩ := ih _ _ _ _ h2
      refine ⟨p :: res, by simp [hpaths], by simp [hlen], ?_⟩
      intro j hj
      cases j with
      | zero =>
        simp only [List.getElem?_cons_zero, List.getElem_cons_zero, List.take_zero,
          Nat.add_zero]
        rw [resolvePV_ok pb idx pv s p hr]
        rfl
      | succ j =>
        have hj2 : j < rest.length := by simpa using hj
        have hst : (pb.resolvePVs ((pv :: rest).take (j + 1)) idx acc s).state
            = (pb.resolvePVs (rest.take j) (idx + 1) (acc ++ [p])
                (pb.resolvePV idx pv s).state).state := by
          simp only [List.take_succ_cons]
          conv_lhs => unfold resolvePVs
          rw [Act.run_bind_of_val _ _ _ _ hr]
        simp only [List.getElem?_cons_succ, List.getElem_cons_succ, hst]
        rw [hall j hj2]
        congr 2
        omega

/-- C4. Kernel LVM physical-volume resolution: kernel mode, `PoolInfo` reports
volume-group-not-found and every physical volume resolves without error.  The
resolved list has the length and order of `cfg.PVs`; its `i`-th element is the
explicit `DevicePath` of the `i`-th volume when that is non-empty and exists on
the host (at the moment the loop examines it) and is `"/dev/loop" + i`
otherwise, so a volume without explicit device path always resolves to
`"/dev/loop" + i`.  The resolution loop itself issues no `CreatePV`/`CreateVG`;
after it `Build` calls `CreatePV` on exactly that list and then, if that
succeeds, `CreateVG(cfg.Pooling.Name, list)`. -/
theorem C4_physical_volume_resolution (pb : PoolBuilder σ) (s s1 s3 s4 : σ)
    (info0 : engine.StaticInfo) (e : GoError) (paths : List String)
    (perr verr : Option GoError)
    (hmode : pb.mode = .PoolModeKernelLVM)
    (hq : pb.eng.PoolInfo pb.cfg.Pooling.Name s = ((info0, some e), s1))
    (hnf : e.isNotFoundVG = true)
    (hres : (pb.resolvePVs pb.cfg.PVs 0 [] s1).val = some (.ok paths))
    (hpv : pb.host.CreatePV paths (pb.resolvePVs pb.cfg.PVs 0 [] s1).state = (perr, s3))
    (hvg : pb.host.CreateVG pb.cfg.Pooling.Name paths s3 = (verr, s4)) :
    paths.length = pb.cfg.PVs.length
    ∧ (∀ i (hi : i < pb.cfg.PVs.length),
        paths[i]? = some
          (if pb.cfg.PVs[i].DevicePath ≠ ""
              ∧ (pb.host.FileExists pb.cfg.PVs[i].DevicePath
                  (pb.resolvePVs (pb.cfg.PVs.take i) 0 [] s1).state).1.1 = true
           then pb.cfg.PVs[i].DevicePath
           else "/dev/loop" ++ toString i))
    ∧ (∀ i (hi : i < pb.cfg.PVs.length), pb.cfg.PVs[i].DevicePath = "" →
        paths[i]? = some ("/dev/loop" ++ toString i))
    ∧ (∀ c ∈ (pb.resolvePVs pb.cfg.PVs 0 [] s1).trace, c.isLvmCreate = false)
    ∧ (pb.cfg.PVs ≠ [] →
        (pb.Build s).trace =
          Call.PoolInfo pb.cfg.Pooling.Name :: (pb.resolvePVs pb.cfg.PVs 0 [] s1).trace
            ++ Call.CreatePV paths ::
              (match perr with
               | some _ => []
               | none =>
                 Call.CreateVG pb.cfg.Pooling.Name paths ::
                   (match verr with
                    | some _ => []
                    | none => [Call.PoolInfo pb.cfg.Pooling.Name]))) := by
  obtain ⟨res, hpaths, hlen, hall⟩ := resolvePVs_ok pb _ _ _ _ _ hres
  simp only [List.nil_append] at hpaths
  subst hpaths
  have hi_th : ∀ i (hi : i < pb.cfg.PVs.length),
      paths[i]? = some
        (if pb.cfg.PVs[i].DevicePath ≠ ""
            ∧ (pb.host.FileExists pb.cfg.PVs[i].DevicePath
                (pb.resolvePVs (pb.cfg.PVs.take i) 0 [] s1).state).1.1 = true
         then pb.cfg.PVs[i].DevicePath
         else "/dev/loop" ++ toString i) := by
    intro i hi
    have := hall i hi
    simpa [resolvedPath] using this
  refine ⟨hlen, hi_th, ?_, ?_, ?_⟩
  · intro i hi hempty
    rw [hi_th i hi]
    simp [hempty]
  · intro c hc
    exact (resolvePVs_emits pb (fun c => c.isLvmCreate = false) (fun _ => rfl) (fun _ _ => rfl)
      (fun _ _ => rfl) _ _ _).all s1 c hc
  · intro hne
    have hlen0 : ¬ paths = [] := by
      intro h0
      rw [h0] at hlen
      exact hne (List.length_eq_zero.mp hlen.symm)
    cases perr with
    | some e2 =>
      simp [Build, hmode, buildLVM, Act.run_call_bind, hq, hnf,
        Act.run_bind_of_val _ _ _ _ hres, hlen0, hpv, Act.run_pure]
    | none =>
      cases verr with
      | some e3 =>
        simp [Build, hmode, buildLVM, Act.run_call_bind, hq, hnf,
          Act.run_bind_of_val _ _ _ _ hres, hlen0, hpv, hvg, Act.run_pure]
      | none =>
        simp [Build, hmode, buildLVM, Act.run_call_bind, hq, hnf,
          Act.run_bind_of_val _ _ _ _ hres, hlen0, hpv, hvg, Act.run_pure]

/-- Witness of C4, the fresh kernel-LVM scenario: one physical volume
`{FilePath: "/data/pv0.img", Size: 1073741824}` without device path resolves to
`["/dev/loop0"]`, which is what `CreatePV` and `CreateVG("vg0", _)` receive. -/
theorem C4_witness :
    (sample.freshKernelBuilder.mode = .PoolModeKernelLVM
      ∧ sample.freshKernelBuilder.cfg.PVs
          = [{ DevicePath := "", FilePath := "/data/pv0.img", Size := 1073741824 }]
      ∧ sample.freshKernelBuilder.eng.PoolInfo "vg0" 0
          = ((engine.StaticInfo.zero, some sample.errNotFoundVG), 0)
      ∧ sample.errNotFoundVG.isNotFoundVG = true
      ∧ (sample.freshKernelBuilder.resolvePVs sample.freshKernelBuilder.cfg.PVs 0 [] 0).val
          = some (.ok ["/dev/loop0"]))
    ∧ ["/dev/loop0"].length = sample.freshKernelBuilder.cfg.PVs.length
    ∧ (["/dev/loop0"] : List String)[0]? = some ("/dev/loop" ++ toString 0)
    ∧ (sample.freshKernelBuilder.Build 0).trace
        = [Call.PoolInfo "vg0", Call.FileExists "/dev/loop0",
           Call.CreateFallocateFile "/data/pv0.img" 1073741824,
           Call.CreateLoopDevice "/dev/loop0" "/data/pv0.img",
           Call.CreatePV ["/dev/loop0"], Call.CreateVG "vg0" ["/dev/loop0"],
           Call.PoolInfo "vg0"] :=
  ⟨⟨rfl, rfl, rfl, rfl, rfl⟩,
   (C4_physical_volume_resolution sample.freshKernelBuilder 0 0 3 4 engine.StaticInfo.zero
      sample.errNotFoundVG ["/dev/loop0"] none none rfl rfl rfl rfl rfl rfl).1,
   (C4_physical_volume_resolution sample.freshKernelBuilder 0 0 3 4 engine.StaticInfo.zero
      sample.errNotFoundVG ["/dev/loop0"] none none rfl rfl rfl rfl rfl rfl).2.2.1
      0 (by decide) rfl,
   (C4_physical_volume_resolution sample.freshKernelBuilder 0 0 3 4 engine.StaticInfo.zero
      sample.errNotFoundVG ["/dev/loop0"] none none rfl rfl rfl rfl rfl rfl).2.2.2.2
      (by decide)⟩

theorem Build_emits_no_uring_raid (pb : PoolBuilder σ) :
    Act.Emits (fun c => c.isUringRaid = false) pb.Build := by
  unfold Build
  split
  · exact buildLVM_emits pb _ isUringRaid_of_not_raidPath _
  · exact buildSpdkLVS_emits pb _
  · exact Act.Emits.pure _

theorem Build_emits_no_raid_path (pb : PoolBuilder σ)
    (h : pb.mode ≠ .PoolModeSpdkLVStore ∨ pb.cfg.Bdev.Type_ ≠ .RaidBdevType) :
    Act.Emits (fun c => c.isRaidPath = false) pb.Build := by
  unfold Build
  split
  · exact buildLVM_emits pb _ (fun _ hc => hc) _
  · rename_i hm
    rcases h with h | h
    · exact absurd hm h
    · exact buildSpdkLVS_emits_not_raid pb _ h
  · exact Act.Emits.pure _

/-- C10. Reachability of the RAID variants through `Build`: for every mode,
configuration and host, `Build` never calls `ListNVMePaths` nor
`CreateLVStoreFromNVMeDevicePaths`; outside SPDK mode with base-device kind
Raid it issues no call of the RAID sub-path at all; and when it does enter
`buildLvsRaidBdev` (SPDK mode, kind Raid, store reported device-not-found) the
run is the PCI-passthrough branch: `prepareNVMePCI`, then
`CreateLVStoreFromNVMeIDs` on the identities it returned if it returned without
error. -/
theorem C10_uring_raid_branch_unreachable (pb : PoolBuilder σ) (s : σ) :
    (∀ c ∈ (pb.Build s).trace,
        c ≠ Call.ListNVMePaths ∧ ∀ req, c ≠ Call.CreateLVStoreFromNVMeDevicePaths req)
    ∧ (pb.mode ≠ .PoolModeSpdkLVStore ∨ pb.cfg.Bdev.Type_ ≠ .RaidBdevType →
        ∀ c ∈ (pb.Build s).trace, c.isRaidPath = false)
    ∧ (∀ (lvs : spdk.LVStoreInfo) (e : GoError) (s1 : σ),
        pb.mode = .PoolModeSpdkLVStore → pb.cfg.Bdev.Type_ = .RaidBdevType →
        pb.spdk.GetLVStore pb.cfg.Bdev.Name s = ((lvs, some e), s1) →
        e.isNotFoundDevice = true →
        (pb.Build s).trace =
          Call.GetLVStore pb.cfg.Bdev.Name :: (pb.prepareNVMePCI s1).trace
            ++ (match (pb.prepareNVMePCI s1).val with
                | some (ids, none) => [Call.CreateLVStoreFromNVMeIDs { NVMeIDs := ids }]
                | _ => [])) := by
  refine ⟨?_, ?_, ?_⟩
  · intro c hc
    have h := (Build_emits_no_uring_raid pb).all s c hc
    constructor
    · intro heq
      rw [heq] at h
      simp [Call.isUringRaid] at h
    · intro req heq
      rw [heq] at h
      simp [Call.isUringRaid] at h
  · intro h c hc
    exact (Build_emits_no_raid_path pb h).all s c hc
  · intro lvs e s1 hmode htype hq hnf
    have hb : pb.Build s =
        { val := (pb.buildLvsRaidBdev pb.cfg s1).val
          state := (pb.buildLvsRaidBdev pb.cfg s1).state
          trace := Call.GetLVStore pb.cfg.Bdev.Name :: (pb.buildLvsRaidBdev pb.cfg s1).trace } := by
      simp [Build, hmode, buildSpdkLVS, Act.run_call_bind, hq, IsNotFoundDeviceError, hnf, htype]
    rw [hb]
    simp only [List.cons_append, List.cons.injEq, true_and]
    simp only [buildLvsRaidBdev, htype, Act.bind_assoc]
    cases hv : (pb.prepareNVMePCI s1).val with
    | none => simp [Act.run_bind, hv]
    | some r =>
      rcases r with ⟨ids, _ | e2⟩
      · cases hc : (pb.spdk.CreateLVStoreFromNVMeIDs { NVMeIDs := ids }
            (pb.prepareNVMePCI s1).state).1.2 <;>
          simp [Act.run_bind_of_val _ _ _ _ hv, Act.bind_assoc, Act.run_call_bind, hc,
            Act.run_pure_bind, Act.run_pure]
      · simp [Act.run_bind_of_val _ _ _ _ hv, Act.run_pure_bind, Act.run_pure]

/-- Witness of C10 on the sample host with one NVMe controller: the run of
`Build` is the store query, `prepareNVMePCI`, and the store creation from the
enumerated identity. -/
theorem C10_witness :
    (sample.raidOneBuilder.mode = .PoolModeSpdkLVStore
      ∧ sample.raidOneBuilder.cfg.Bdev.Type_ = .RaidBdevType
      ∧ sample.raidOneBuilder.spdk.GetLVStore "nvme0" 0
          = ((spdk.LVStoreInfo.zero, some sample.errNoDevice), 0)
      ∧ sample.errNoDevice.isNotFoundDevice = true)
    ∧ (sample.raidOneBuilder.Build 0).trace
        = [Call.GetLVStore "nvme0", Call.HasKmod "vfio_pci", Call.HasKmod "vfio_iommu_type1",
           Call.ListNVMeID, Call.CheckNVMeExistence "0000:00:04.0" "nvme",
           Call.UnbindNVMe "0000:00:04.0" "nvme", Call.GetNVMeTypeID "0000:00:04.0",
           Call.BindNVMeByType "1d0f 8061" "vfio-pci", Call.Sleep 5,
           Call.CreateLVStoreFromNVMeIDs { NVMeIDs := ["0000:00:04.0"] }] :=
  ⟨⟨rfl, rfl, rfl, rfl⟩,
   (C10_uring_raid_branch_unreachable sample.raidOneBuilder 0).2.2 spdk.LVStoreInfo.zero
     sample.errNoDevice 0 rfl rfl rfl rfl⟩

end PoolBuilder

namespace spdk.SpdkService

variable {σ : Type}

/-- C8, as the code has it: if the RPC connection is available, the device path
exists on the host (`misc.FileExists` reports it without error) and the bdev
listing for `X` returns no error and contains an entry named `X`,
`CreateUringBdev{X, path, size}` returns nil after the connection, path and
listing calls, without issuing `BdevUringCreate`. -/
theorem C8_create_uring_noop_on_existing (svc : SpdkService σ) (s s1 s2 s3 : σ)
    (req : UringBdevCreateRequest) (list : List Bdev)
    (hcli : svc.client s = (none, s1))
    (hfe : svc.FileExists req.DevPath s1 = ((true, none), s2))
    (hl : svc.BdevGetBdevs req.BdevName s2 = ((list, none), s3))
    (hx : ∃ item ∈ list, item.Name = req.BdevName) :
    svc.CreateUringBdev req s =
      { val := some none
        state := s3
        trace := [Call.client, Call.FileExists req.DevPath, Call.BdevGetBdevs req.BdevName] } := by
  simp [CreateUringBdev, Act.run_call_bind, hcli, hfe, hl, hx, IsNotFoundDeviceError,
    Act.run_pure]

/-- Witness of the amended C8: the bdev `"X"` is listed and the path exists. -/
theorem C8_witness :
    (sample.svcHasBdev.client 0 = (none, 0)
      ∧ sample.svcHasBdev.FileExists "/dev/nvme0n1" 0 = ((true, none), 0)
      ∧ sample.svcHasBdev.BdevGetBdevs "X" 0 = (([{ Name := "X" }], none), 0))
    ∧ sample.svcHasBdev.CreateUringBdev
          { BdevName := "X", DevPath := "/dev/nvme0n1", BlockSize := 512 } 0 =
        { val := some none
          state := 0
          trace := [Call.client, Call.FileExists "/dev/nvme0n1", Call.BdevGetBdevs "X"] } :=
  ⟨⟨rfl, rfl, rfl⟩,
   C8_create_uring_noop_on_existing sample.svcHasBdev 0 0 0 0
     { BdevName := "X", DevPath := "/dev/nvme0n1", BlockSize := 512 } [{ Name := "X" }]
     rfl rfl rfl ⟨{ Name := "X" }, by simp, rfl⟩⟩

/-- Counterexample to C8 as stated, at two inputs with the connection available
and a bdev named `"X"` in the listing.  First, the device path does not exist:
`CreateUringBdev` returns an error after the path check.  Second, the path
exists and the listing answers `"X"` together with the device-not-found error:
no create is issued, but the swallowed listing error is what the call returns. -/
theorem C8_counterexample :
    (sample.svcNoPath.client 0 = (none, 0)
      ∧ sample.svcNoPath.BdevGetBdevs "X" 0 = (([{ Name := "X" }], none), 0)
      ∧ sample.svcNoPath.CreateUringBdev
            { BdevName := "X", DevPath := "/dev/nvme9n9", BlockSize := 512 } 0 =
          { val := some (some (Errorf "devPath /dev/nvme9n9 not exists, false, <nil>"))
            state := 0
            trace := [Call.client, Call.FileExists "/dev/nvme9n9"] })
    ∧ (sample.svcListedWithError.client 0 = (none, 0)
      ∧ sample.svcListedWithError.FileExists "/dev/nvme0n1" 0 = ((true, none), 0)
      ∧ sample.svcListedWithError.BdevGetBdevs "X" 0
          = (([{ Name := "X" }], some sample.errNoDevice), 0)
      ∧ sample.svcListedWithError.CreateUringBdev
            { BdevName := "X", DevPath := "/dev/nvme0n1", BlockSize := 512 } 0 =
          { val := some (some sample.errNoDevice)
            state := 0
            trace := [Call.client, Call.FileExists "/dev/nvme0n1", Call.BdevGetBdevs "X"] }) := by
  refine ⟨⟨rfl, rfl, ?_⟩, ⟨rfl, rfl, rfl, ?_⟩⟩
  · decide
  · decide

/-- C9, as the code has it: with the RPC connection available, if the bdev
listing for `X` returns no error and no entry named `X` (an empty result or a
result without `X`), or returns the device-not-found error with an empty
result, `DeleteUringBdev{X}` returns nil and issues no `BdevUringDelete`; if
the listing returns no error and an entry named `X`, it issues
`BdevUringDelete` exactly once and fails if and only if that call returns an
error or a false result. -/
theorem C9_tolerant_delete (svc : SpdkService σ) (s s1 s2 s3 : σ) (name : String)
    (list : List Bdev) (lerr rerr : Option GoError) (res : Bool)
    (hcli : svc.client s = (none, s1))
    (hl : svc.BdevGetBdevs name s1 = ((list, lerr), s2))
    (hd : svc.BdevUringDelete name s2 = ((res, rerr), s3)) :
    (((lerr = none ∧ ∀ item ∈ list, item.Name ≠ name)
        ∨ (IsNotFoundDeviceError lerr = true ∧ list = [])) →
      svc.DeleteUringBdev { BdevName := name } s =
        { val := some none, state := s2, trace := [Call.client, Call.BdevGetBdevs name] })
    ∧ (lerr = none → (∃ item ∈ list, item.Name = name) →
      (svc.DeleteUringBdev { BdevName := name } s).trace
          = [Call.client, Call.BdevGetBdevs name, Call.BdevUringDelete name]
      ∧ ((∃ err, (svc.DeleteUringBdev { BdevName := name } s).val = some (some err))
          ↔ (rerr ≠ none ∨ res = false))
      ∧ ((svc.DeleteUringBdev { BdevName := name } s).val = some none
          ↔ (rerr = none ∧ res = true))) := by
  constructor
  · intro h
    rcases h with ⟨herr, hno⟩ | ⟨herr, hnil⟩
    · have hno2 : ¬ ∃ x ∈ list, x.Name = name := by
        rintro ⟨x, hmem, hname⟩
        exact hno x hmem hname
      subst herr
      by_cases hnil : list = []
      · simp [DeleteUringBdev, Act.run_call_bind, hcli, hl, IsNotFoundDeviceError, hnil,
          Act.run_pure]
      · simp [DeleteUringBdev, Act.run_call_bind, hcli, hl, IsNotFoundDeviceError, hnil, hno2,
          Act.run_pure]
    · subst hnil
      simp [DeleteUringBdev, Act.run_call_bind, hcli, hl, herr, Act.run_pure]
  · intro hnone hx
    subst hnone
    have hnil : ¬ list = [] := by
      obtain ⟨item, hmem, -⟩ := hx
      intro h0
      rw [h0] at hmem
      simp at hmem
    cases res <;> cases rerr <;>
      simp [DeleteUringBdev, Act.run_call_bind, hcli, hl, IsNotFoundDeviceError, hnil, hx, hd,
        Act.run_pure]

/-- Witness of the amended C9: deleting `"X"` on an engine without bdevs is a
no-op, and on an engine that lists `"X"` it issues the delete call once and
succeeds. -/
theorem C9_witness :
    ((sample.svcNoBdev.client 0 = (none, 0)
        ∧ sample.svcNoBdev.BdevGetBdevs "X" 0 = (([], some sample.errNoDevice), 0)
        ∧ IsNotFoundDeviceError (some sample.errNoDevice) = true)
      ∧ sample.svcNoBdev.DeleteUringBdev { BdevName := "X" } 0 =
          { val := some none, state := 0, trace := [Call.client, Call.BdevGetBdevs "X"] })
    ∧ ((sample.svcHasBdev.client 0 = (none, 0)
        ∧ sample.svcHasBdev.BdevGetBdevs "X" 0 = (([{ Name := "X" }], none), 0)
        ∧ sample.svcHasBdev.BdevUringDelete "X" 0 = ((true, none), 1))
      ∧ (sample.svcHasBdev.DeleteUringBdev { BdevName := "X" } 0).trace
          = [Call.client, Call.BdevGetBdevs "X", Call.BdevUringDelete "X"]
      ∧ ((sample.svcHasBdev.DeleteUringBdev { BdevName := "X" } 0).val = some none
          ↔ ((none : Option GoError) = none ∧ true = true))) :=
  ⟨⟨⟨rfl, rfl, rfl⟩,
    (C9_tolerant_delete sample.svcNoBdev 0 0 0 1 "X" [] (some sample.errNoDevice) none true
      rfl rfl rfl).1 (Or.inr ⟨rfl, rfl⟩)⟩,
   ⟨⟨rfl, rfl, rfl⟩,
    ((C9_tolerant_delete sample.svcHasBdev 0 0 0 1 "X" [{ Name := "X" }] none none true
      rfl rfl rfl).2 rfl ⟨{ Name := "X" }, by simp, rfl⟩).1,
    ((C9_tolerant_delete sample.svcHasBdev 0 0 0 1 "X" [{ Name := "X" }] none none true
      rfl rfl rfl).2 rfl ⟨{ Name := "X" }, by simp, rfl⟩).2.2⟩⟩

/-- Counterexample to C9 as stated, at two inputs with the connection
available.  First, the listing for `"X"` answers the device-not-found error
and one entry, `"Y"`, so no entry named `"X"`: `DeleteUringBdev{X}` issues no
delete but returns the swallowed listing error, not nil.  Second, the listing
answers `"X"` together with that error and `BdevUringDelete` returns true
without error: the delete is issued once and the call still returns the
listing error. -/
theorem C9_counterexample :
    (sample.svcOtherWithError.client 0 = (none, 0)
      ∧ sample.svcOtherWithError.BdevGetBdevs "X" 0
          = (([{ Name := "Y" }], some sample.errNoDevice), 0)
      ∧ IsNotFoundDeviceError (some sample.errNoDevice) = true
      ∧ sample.svcOtherWithError.DeleteUringBdev { BdevName := "X" } 0 =
          { val := some (some sample.errNoDevice)
            state := 0
            trace := [Call.client, Call.BdevGetBdevs "X"] })
    ∧ (sample.svcListedWithError.client 0 = (none, 0)
      ∧ sample.svcListedWithError.BdevGetBdevs "X" 0
          = (([{ Name := "X" }], some sample.errNoDevice), 0)
      ∧ sample.svcListedWithError.BdevUringDelete "X" 0 = ((true, none), 1)
      ∧ sample.svcListedWithError.DeleteUringBdev { BdevName := "X" } 0 =
          { val := some (some sample.errNoDevice)
            state := 1
            trace := [Call.client, Call.BdevGetBdevs "X", Call.BdevUringDelete "X"] }) := by
  refine ⟨⟨rfl, rfl, rfl, ?_⟩, ⟨rfl, rfl, rfl, ?_⟩⟩
  · decide
  · decide

end spdk.SpdkService

end liteio
